import Mathlib

/-!
Verification of the imgur REST API client (`src/lib.rs`): the response
envelope data model, the shape-discriminated `data` union, the decode
pipeline, and the error taxonomy.

The Rust source relies on `serde`/`serde_json` derived (de)serializers.
We embed those derived semantics shallowly:

* `Json` models a parsed `serde_json` document.  `serde_json` parses a
  number written without a fraction or exponent as an integer (falling
  back to a float when it exceeds 64 bits, which the integer
  deserializers then reject — modelled by the range check in
  `decodeU32`/`decodeUsize`), and a number written with a `.` or an
  exponent as a float, which the integer deserializers reject; so the
  model keeps the two syntactic classes apart (`num` vs `decimal`).
* a derived struct deserializer accepts its fields in any order,
  ignores unknown fields (no `deny_unknown_fields` in the source),
  errors on a duplicated known field, errors on a missing required
  field, and resolves a missing `Option` field to `None`
  (`decodeApiError`, `decodeImage`, `decodeAlbum`, `decodeResponse`).
* `#[serde(untagged)]` on `ResponseData<T>` tries the variants in
  declaration order: first `Success(T)`, then `Error(ApiError)`
  (`decodeResponseData`).
* derived serializers emit fields in declaration order, `Option::None`
  as `null`, and a `Vec` as an array (`encodeImage`, `encodeAlbum`,
  `encodeResponse`).

Byte buffers are modelled as `String` (the tests only exercise valid
UTF-8); `parseJson` models `serde_json`'s textual parser.
-/

namespace Imgur

/-- A parsed JSON document.  `num n` is a number written as an integer
literal; `decimal m e` (value `m * 10 ^ e`) is a number written with a
fraction or an exponent, which `serde_json` treats as a float. -/
inductive Json where
  | null
  | bool (b : Bool)
  | num (n : Int)
  | decimal (mantissa : Int) (exponent : Int)
  | str (s : String)
  | arr (elems : List Json)
  | obj (fields : List (String × Json))
deriving Repr, Inhabited

/-- How many entries of a JSON object carry the key `k`. -/
def countKey : List (String × Json) → String → Nat
  | [], _ => 0
  | (k', _) :: rest, k => (if k' == k then 1 else 0) + countKey rest k

/-- The value of the first entry carrying the key `k`, if any. -/
def lookupKey : List (String × Json) → String → Option Json
  | [], _ => none
  | (k', v) :: rest, k => if k' == k then some v else lookupKey rest k

/-- Sequencing of fallible field decodes — the derived deserializer
stops at the first failing field (locally defined bind on `Option`). -/
def obind : Option α → (α → Option β) → Option β
  | none, _ => none
  | some a, f => f a

/-- Decode a required struct field: a derived serde deserializer errors
when the field is missing or duplicated, and otherwise decodes its
value. -/
def reqField (fields : List (String × Json)) (k : String)
    (dec : Json → Option α) : Option α :=
  if countKey fields k == 1 then (lookupKey fields k).bind dec else none

/-- Deserialization of `Option<T>`: `null` becomes `None`, anything else
must decode as `T`. -/
def decodeNullable (dec : Json → Option α) : Json → Option (Option α)
  | .null => some none
  | j => (dec j).map some

/-- Decode an `Option` struct field: a missing field resolves to `None`,
a duplicated field is an error, a present field decodes via
`decodeNullable`. -/
def optField (fields : List (String × Json)) (k : String)
    (dec : Json → Option α) : Option (Option α) :=
  match countKey fields k with
  | 0 => some none
  | 1 => (lookupKey fields k).bind (decodeNullable dec)
  | _ => none

/-- Deserialization of `bool`. -/
def decodeBool : Json → Option Bool
  | .bool b => some b
  | _ => none

/-- Deserialization of `String`. -/
def decodeString : Json → Option String
  | .str s => some s
  | _ => none

/-- Deserialization of `u32`: an integer-written number in
`[0, 2 ^ 32)`; floats, negatives and out-of-range numbers are
rejected. -/
def decodeU32 : Json → Option Nat
  | .num n => if 0 ≤ n ∧ n < 2 ^ 32 then some n.toNat else none
  | _ => none

/-- Deserialization of `usize` (64-bit platform): an integer-written
number in `[0, 2 ^ 64)`. -/
def decodeUsize : Json → Option Nat
  | .num n => if 0 ≤ n ∧ n < 2 ^ 64 then some n.toNat else none
  | _ => none

/-- Sequentially decode the elements of a JSON array (serde's `Vec`
visitor): every element must decode, in order. -/
def decodeElems (dec : Json → Option α) : List Json → Option (List α)
  | [] => some []
  | j :: rest =>
    obind (dec j) fun x =>
    obind (decodeElems dec rest) fun xs =>
    some (x :: xs)

/-- Deserialization of `Vec<T>`: a JSON array whose every element
decodes as `T`, in order. -/
def decodeList (dec : Json → Option α) : Json → Option (List α)
  | .arr xs => decodeElems dec xs
  | _ => none

/-- Error data returned by the API (`struct ApiError` in `src/lib.rs`). -/
structure ApiError where
  error : String
  request : String
  method : String
deriving Repr, DecidableEq

/-- The derived `Deserialize` for `ApiError`: an object with required
string fields `error`, `request` and `method`. -/
def decodeApiError : Json → Option ApiError
  | .obj fs =>
    obind (reqField fs "error" decodeString) fun error =>
    obind (reqField fs "request" decodeString) fun request =>
    obind (reqField fs "method" decodeString) fun method =>
    some { error := error, request := request, method := method }
  | _ => none

/-- The derived `Serialize` for `ApiError`. -/
def encodeApiError (e : ApiError) : Json :=
  .obj [("error", .str e.error), ("request", .str e.request),
        ("method", .str e.method)]

/-- The unified error type produced by the source's `error_chain!`
block: foreign links for `native_tls::Error`, `hyper::Error` (the
transport), `serde_json::Error` (decode) and `ApiError` (the API said
no).  The claims only need the kinds, plus the `ApiError` payload. -/
inductive Error where
  | Tls
  | Hyper
  | Serde
  | Imgur (e : ApiError)
deriving Repr, DecidableEq

/-- The `data` field of the JSON response: either payload data or an
API error (`enum ResponseData<T>` in `src/lib.rs`). -/
inductive ResponseData (α : Type) where
  | Success (v : α)
  | Error (e : ApiError)
deriving Repr

/-- Converts a decoded `data` union into a `Result` — Rust's
`ResponseData::into_result`, with `Err(e.into())` landing in the
`Imgur` variant of the unified error. -/
def ResponseData.into_result : ResponseData α → Except Imgur.Error α
  | .Success v => .ok v
  | .Error e => .error (.Imgur e)

/-- Deserialization of `#[serde(untagged)] ResponseData<T>`: try the
variants in declaration order — `Success(T)` first, then
`Error(ApiError)`; if neither matches, fail. -/
def decodeResponseData (dec : Json → Option α) (j : Json) :
    Option (ResponseData α) :=
  match dec j with
  | some v => some (.Success v)
  | none =>
    match decodeApiError j with
    | some e => some (.Error e)
    | none => none

/-- Serialization of `#[serde(untagged)] ResponseData<T>`: the variant's
content, transparently. -/
def encodeResponseData (enc : α → Json) : ResponseData α → Json
  | .Success v => enc v
  | .Error e => encodeApiError e

/-- Wrapper type returned from all the web API methods
(`struct Response<T>` in `src/lib.rs`). -/
structure Response (α : Type) where
  status : Nat
  success : Bool
  data : ResponseData α
deriving Repr

/-- The derived `Deserialize` for `Response<T>`: an object with required
fields `status : usize`, `success : bool` and `data : ResponseData<T>`. -/
def decodeResponse (dec : Json → Option α) : Json → Option (Response α)
  | .obj fs =>
    obind (reqField fs "status" decodeUsize) fun status =>
    obind (reqField fs "success" decodeBool) fun success =>
    obind (reqField fs "data" (decodeResponseData dec)) fun data =>
    some { status := status, success := success, data := data }
  | _ => none

/-- The derived `Serialize` for `Response<T>`. -/
def encodeResponse (enc : α → Json) (r : Response α) : Json :=
  .obj [("status", .num r.status), ("success", .bool r.success),
        ("data", encodeResponseData enc r.data)]

/-- Data returned for an image (`struct Image` in `src/lib.rs`).  Rust
`u32` fields become `Nat`; `Image.wf` records their 32-bit range. -/
structure Image where
  account_id : Option String
  account_url : Option String
  ad_type : Nat
  ad_url : String
  animated : Bool
  bandwidth : Nat
  datetime : Nat
  description : Option String
  favorite : Bool
  height : Nat
  id : String
  in_gallery : Bool
  in_most_viral : Bool
  is_ad : Bool
  link : String
  nsfw : Option Bool
  «section» : Option String
  size : Nat
  tags : List String
  title : Option String
  views : Nat
  vote : Option String
  width : Nat
deriving Repr, DecidableEq

/-- The `u32` fields of an `Image` fit in 32 bits — true of every value
a running Rust program can hold. -/
def Image.wf (i : Image) : Prop :=
  i.ad_type < 2 ^ 32 ∧ i.bandwidth < 2 ^ 32 ∧ i.datetime < 2 ^ 32 ∧
  i.height < 2 ^ 32 ∧ i.size < 2 ^ 32 ∧ i.views < 2 ^ 32 ∧ i.width < 2 ^ 32

instance (i : Image) : Decidable i.wf := by unfold Image.wf; infer_instance

/-- The derived `Deserialize` for `Image`. -/
def decodeImage : Json → Option Image
  | .obj fs =>
    obind (optField fs "account_id" decodeString) fun account_id =>
    obind (optField fs "account_url" decodeString) fun account_url =>
    obind (reqField fs "ad_type" decodeU32) fun ad_type =>
    obind (reqField fs "ad_url" decodeString) fun ad_url =>
    obind (reqField fs "animated" decodeBool) fun animated =>
    obind (reqField fs "bandwidth" decodeU32) fun bandwidth =>
    obind (reqField fs "datetime" decodeU32) fun datetime =>
    obind (optField fs "description" decodeString) fun description =>
    obind (reqField fs "favorite" decodeBool) fun favorite =>
    obind (reqField fs "height" decodeU32) fun height =>
    obind (reqField fs "id" decodeString) fun id =>
    obind (reqField fs "in_gallery" decodeBool) fun in_gallery =>
    obind (reqField fs "in_most_viral" decodeBool) fun in_most_viral =>
    obind (reqField fs "is_ad" decodeBool) fun is_ad =>
    obind (reqField fs "link" decodeString) fun link =>
    obind (optField fs "nsfw" decodeBool) fun nsfw =>
    obind (optField fs "section" decodeString) fun sec =>
    obind (reqField fs "size" decodeU32) fun size =>
    obind (reqField fs "tags" (decodeList decodeString)) fun tags =>
    obind (optField fs "title" decodeString) fun title =>
    obind (reqField fs "views" decodeU32) fun views =>
    obind (optField fs "vote" decodeString) fun vote =>
    obind (reqField fs "width" decodeU32) fun width =>
    some { account_id := account_id, account_url := account_url,
           ad_type := ad_type, ad_url := ad_url, animated := animated,
           bandwidth := bandwidth, datetime := datetime,
           description := description, favorite := favorite,
           height := height, id := id, in_gallery := in_gallery,
           in_most_viral := in_most_viral, is_ad := is_ad, link := link,
           nsfw := nsfw, «section» := sec, size := size, tags := tags,
           title := title, views := views, vote := vote, width := width }
  | _ => none

/-- Serialization of an `Option` field (no `skip_serializing_if` in the
source): `None` becomes `null`. -/
def encodeNullable (enc : α → Json) : Option α → Json
  | none => .null
  | some x => enc x

/-- The derived `Serialize` for `Image`: fields in declaration order. -/
def encodeImage (i : Image) : Json :=
  .obj [("account_id", encodeNullable .str i.account_id),
        ("account_url", encodeNullable .str i.account_url),
        ("ad_type", .num i.ad_type),
        ("ad_url", .str i.ad_url),
        ("animated", .bool i.animated),
        ("bandwidth", .num i.bandwidth),
        ("datetime", .num i.datetime),
        ("description", encodeNullable .str i.description),
        ("favorite", .bool i.favorite),
        ("height", .num i.height),
        ("id", .str i.id),
        ("in_gallery", .bool i.in_gallery),
        ("in_most_viral", .bool i.in_most_viral),
        ("is_ad", .bool i.is_ad),
        ("link", .str i.link),
        ("nsfw", encodeNullable .bool i.nsfw),
        ("section", encodeNullable .str i.«section»),
        ("size", .num i.size),
        ("tags", .arr (i.tags.map .str)),
        ("title", encodeNullable .str i.title),
        ("views", .num i.views),
        ("vote", encodeNullable .str i.vote),
        ("width", .num i.width)]

/-- Data returned for an album (`struct Album` in `src/lib.rs`). -/
structure Album where
  id : String
  title : String
  description : String
  datetime : Nat
  cover : String
  cover_width : Nat
  cover_height : Nat
  account_url : Option String
  privacy : String
  layout : String
  views : Nat
  link : String
  favorite : Bool
  nsfw : Option Bool
  «section» : Option String
  order : Nat
  deletehash : Option String
  images_count : Nat
  images : Option (List Image)
  in_gallery : Bool
deriving Repr, DecidableEq

/-- The `u32` fields of an `Album` (and of every embedded `Image`) fit
in 32 bits. -/
def Album.wf (a : Album) : Prop :=
  a.datetime < 2 ^ 32 ∧ a.cover_width < 2 ^ 32 ∧ a.cover_height < 2 ^ 32 ∧
  a.views < 2 ^ 32 ∧ a.order < 2 ^ 32 ∧ a.images_count < 2 ^ 32 ∧
  ∀ i ∈ a.images.getD [], i.wf

instance (a : Album) : Decidable a.wf := by unfold Album.wf; infer_instance

/-- The derived `Deserialize` for `Album`. -/
def decodeAlbum : Json → Option Album
  | .obj fs =>
    obind (reqField fs "id" decodeString) fun id =>
    obind (reqField fs "title" decodeString) fun title =>
    obind (reqField fs "description" decodeString) fun description =>
    obind (reqField fs "datetime" decodeU32) fun datetime =>
    obind (reqField fs "cover" decodeString) fun cover =>
    obind (reqField fs "cover_width" decodeU32) fun cover_width =>
    obind (reqField fs "cover_height" decodeU32) fun cover_height =>
    obind (optField fs "account_url" decodeString) fun account_url =>
    obind (reqField fs "privacy" decodeString) fun privacy =>
    obind (reqField fs "layout" decodeString) fun layout =>
    obind (reqField fs "views" decodeU32) fun views =>
    obind (reqField fs "link" decodeString) fun link =>
    obind (reqField fs "favorite" decodeBool) fun favorite =>
    obind (optField fs "nsfw" decodeBool) fun nsfw =>
    obind (optField fs "section" decodeString) fun sec =>
    obind (reqField fs "order" decodeU32) fun order =>
    obind (optField fs "deletehash" decodeString) fun deletehash =>
    obind (reqField fs "images_count" decodeU32) fun images_count =>
    obind (optField fs "images" (decodeList decodeImage)) fun images =>
    obind (reqField fs "in_gallery" decodeBool) fun in_gallery =>
    some { id := id, title := title, description := description,
           datetime := datetime, cover := cover,
           cover_width := cover_width, cover_height := cover_height,
           account_url := account_url, privacy := privacy,
           layout := layout, views := views, link := link,
           favorite := favorite, nsfw := nsfw, «section» := sec,
           order := order, deletehash := deletehash,
           images_count := images_count, images := images,
           in_gallery := in_gallery }
  | _ => none

/-- The derived `Serialize` for `Album`: fields in declaration order. -/
def encodeAlbum (a : Album) : Json :=
  .obj [("id", .str a.id),
        ("title", .str a.title),
        ("description", .str a.description),
        ("datetime", .num a.datetime),
        ("cover", .str a.cover),
        ("cover_width", .num a.cover_width),
        ("cover_height", .num a.cover_height),
        ("account_url", encodeNullable .str a.account_url),
        ("privacy", .str a.privacy),
        ("layout", .str a.layout),
        ("views", .num a.views),
        ("link", .str a.link),
        ("favorite", .bool a.favorite),
        ("nsfw", encodeNullable .bool a.nsfw),
        ("section", encodeNullable .str a.«section»),
        ("order", .num a.order),
        ("deletehash", encodeNullable .str a.deletehash),
        ("images_count", .num a.images_count),
        ("images", encodeNullable (fun xs => .arr (xs.map encodeImage)) a.images),
        ("in_gallery", .bool a.in_gallery)]

/-! The textual JSON parser: a model of `serde_json`'s parser, operating
on the response body (`String`, the tests only exercise valid UTF-8).
Numbers written without a fraction or exponent become `Json.num`
(integer literals too large for 64 bits are handled by the range checks
of `decodeU32`/`decodeUsize`); numbers written with `.`/`e`/`E` become
`Json.decimal`. -/

/-- JSON insignificant whitespace. -/
def isJsonWs (c : Char) : Bool :=
  c == ' ' || c == '\t' || c == '\n' || c == '\r'

/-- Drop leading JSON whitespace. -/
def skipWs : List Char → List Char
  | [] => []
  | c :: cs => if isJsonWs c then skipWs cs else c :: cs

/-- Value of one hexadecimal digit. -/
def hexVal (c : Char) : Option Nat :=
  if c.isDigit then some (c.toNat - 48)
  else if 'a' ≤ c ∧ c ≤ 'f' then some (c.toNat - 87)
  else if 'A' ≤ c ∧ c ≤ 'F' then some (c.toNat - 55)
  else none

/-- Value of a four-hex-digit escape. -/
def hex4 (a b c d : Char) : Option Nat :=
  obind (hexVal a) fun va =>
  obind (hexVal b) fun vb =>
  obind (hexVal c) fun vc =>
  obind (hexVal d) fun vd =>
  some (((va * 16 + vb) * 16 + vc) * 16 + vd)

/-- Parse the body of a JSON string (the opening quote already
consumed), handling the escapes `serde_json` accepts, including
surrogate pairs; a raw control character, a lone surrogate, an unknown
escape or a missing closing quote (truncated input) is an error. -/
def parseStringBody (acc : List Char) : List Char → Option (String × List Char)
  | [] => none
  | '"' :: rest => some (String.mk acc.reverse, rest)
  | '\\' :: 'u' :: a :: b :: c :: d :: rest =>
    match hex4 a b c d with
    | none => none
    | some n =>
      if n < 0xD800 ∨ 0xE000 ≤ n then
        parseStringBody (Char.ofNat n :: acc) rest
      else if n < 0xDC00 then
        match rest with
        | '\\' :: 'u' :: e :: f :: g :: h :: rest2 =>
          match hex4 e f g h with
          | none => none
          | some m =>
            if 0xDC00 ≤ m ∧ m < 0xE000 then
              parseStringBody
                (Char.ofNat (0x10000 + (n - 0xD800) * 0x400 + (m - 0xDC00)) :: acc)
                rest2
            else none
        | _ => none
      else none
  | '\\' :: e :: rest =>
    if e == '"' then parseStringBody ('"' :: acc) rest
    else if e == '\\' then parseStringBody ('\\' :: acc) rest
    else if e == '/' then parseStringBody ('/' :: acc) rest
    else if e == 'b' then parseStringBody ('\x08' :: acc) rest
    else if e == 'f' then parseStringBody ('\x0c' :: acc) rest
    else if e == 'n' then parseStringBody ('\n' :: acc) rest
    else if e == 'r' then parseStringBody ('\r' :: acc) rest
    else if e == 't' then parseStringBody ('\t' :: acc) rest
    else none
  | c :: rest =>
    if c.toNat < 0x20 then none else parseStringBody (c :: acc) rest

/-- Split off the longest run of leading decimal digits. -/
def takeDigits : List Char → List Char × List Char
  | [] => ([], [])
  | c :: cs =>
    if c.isDigit then
      let (ds, r) := takeDigits cs
      (c :: ds, r)
    else ([], c :: cs)

/-- Numeric value of a digit run. -/
def digitsVal (ds : List Char) : Nat :=
  ds.foldl (fun a c => a * 10 + (c.toNat - 48)) 0

/-- Parse the exponent of a JSON number (after the `e`/`E`): an optional
sign and at least one digit. -/
def parseExponent (cs : List Char) : Option (Int × List Char) :=
  let (sign, cs1) : Int × List Char :=
    match cs with
    | '+' :: r => (1, r)
    | '-' :: r => (-1, r)
    | _ => (1, cs)
  match takeDigits cs1 with
  | ([], _) => none
  | (eds, r) => some (sign * (digitsVal eds : Int), r)

/-- Parse a JSON number: optional minus, an integer part without
leading zeros, an optional fraction (at least one digit) and an optional
exponent.  A plain integer literal yields `Json.num`; a fraction or an
exponent yields `Json.decimal` (the float path, value
`mantissa * 10 ^ exponent`). -/
def parseNumber (cs : List Char) : Option (Json × List Char) :=
  let (neg, cs1) : Bool × List Char :=
    match cs with
    | '-' :: r => (true, r)
    | _ => (false, cs)
  match takeDigits cs1 with
  | ([], _) => none
  | (ds, r1) =>
    if 2 ≤ ds.length ∧ ds.head? = some '0' then none
    else
      let signed : Nat → Int := fun m => if neg then -(m : Int) else (m : Int)
      match r1 with
      | '.' :: r2 =>
        match takeDigits r2 with
        | ([], _) => none
        | (fd, r3) =>
          let m := signed (digitsVal ds * 10 ^ fd.length + digitsVal fd)
          match r3 with
          | 'e' :: r4 =>
            (parseExponent r4).map fun p => (.decimal m (p.1 - fd.length), p.2)
          | 'E' :: r4 =>
            (parseExponent r4).map fun p => (.decimal m (p.1 - fd.length), p.2)
          | _ => some (.decimal m (-(fd.length : Int)), r3)
      | 'e' :: r2 =>
        (parseExponent r2).map fun p => (.decimal (signed (digitsVal ds)) p.1, p.2)
      | 'E' :: r2 =>
        (parseExponent r2).map fun p => (.decimal (signed (digitsVal ds)) p.1, p.2)
      | _ => some (.num (signed (digitsVal ds)), r1)

mutual

/-- Parse one JSON value (fuelled recursion; `parseJson` supplies ample
fuel).  Exhausted fuel, unexpected characters and truncated input are
errors. -/
def parseValue : Nat → List Char → Option (Json × List Char)
  | 0, _ => none
  | fuel + 1, cs =>
    match skipWs cs with
    | 'n' :: 'u' :: 'l' :: 'l' :: rest => some (.null, rest)
    | 't' :: 'r' :: 'u' :: 'e' :: rest => some (.bool true, rest)
    | 'f' :: 'a' :: 'l' :: 's' :: 'e' :: rest => some (.bool false, rest)
    | '"' :: rest =>
      (parseStringBody [] rest).map fun p => (.str p.1, p.2)
    | '[' :: rest =>
      match skipWs rest with
      | ']' :: r2 => some (.arr [], r2)
      | r2 => parseArrayTail fuel [] r2
    | '\x7b' :: rest =>
      match skipWs rest with
      | '\x7d' :: r2 => some (.obj [], r2)
      | r2 => parseObjectTail fuel [] r2
    | c :: rest =>
      if c == '-' || c.isDigit then parseNumber (c :: rest) else none
    | [] => none

/-- Parse the remaining elements of a non-empty JSON array. -/
def parseArrayTail : Nat → List Json → List Char → Option (Json × List Char)
  | 0, _, _ => none
  | fuel + 1, acc, cs =>
    match parseValue fuel cs with
    | none => none
    | some (v, r) =>
      match skipWs r with
      | ',' :: r2 => parseArrayTail fuel (v :: acc) r2
      | ']' :: r2 => some (.arr (v :: acc).reverse, r2)
      | _ => none

/-- Parse the remaining members of a non-empty JSON object. -/
def parseObjectTail :
    Nat → List (String × Json) → List Char → Option (Json × List Char)
  | 0, _, _ => none
  | fuel + 1, acc, cs =>
    match skipWs cs with
    | '"' :: r =>
      match parseStringBody [] r with
      | none => none
      | some (k, r2) =>
        match skipWs r2 with
        | ':' :: r3 =>
          match parseValue fuel r3 with
          | none => none
          | some (v, r4) =>
            match skipWs r4 with
            | ',' :: r5 => parseObjectTail fuel ((k, v) :: acc) r5
            | '\x7d' :: r5 => some (.obj ((k, v) :: acc).reverse, r5)
            | _ => none
        | _ => none
    | _ => none

end

/-- Parse a complete JSON document: one value, with nothing but
whitespace after it. -/
def parseJson (s : String) : Option Json :=
  match parseValue (2 * s.length + 8) s.data with
  | some (j, rest) => if (skipWs rest).isEmpty then some j else none
  | none => none

/-! The request/decode pipeline of `ImgurClient` and the URL
construction of the three resource operations. -/

/-- Outcome of the transport capability for one `GET`: the request
future fails (`hyper::Error` while sending/receiving), the body stream
fails while being concatenated, or the full body arrives. -/
inductive TransportOutcome where
  | requestError
  | bodyError
  | body (bytes : String)

/-- The source's `serde_json::from_slice(&body).map_err(Error::from)`,
for a payload with decoder `dec`: parse the bytes, decode the value; a
failure of either is a `Serde` (decode) error. -/
def from_slice (dec : Json → Option α) (bytes : String) : Except Error α :=
  match parseJson bytes with
  | none => .error .Serde
  | some j =>
    match dec j with
    | none => .error .Serde
    | some v => .ok v

/-- The body of `ImgurClient::get_with_header`, given the transport's
outcome: a failed request future or a failed body read becomes the
transport error (`Error::from` a `hyper::Error`); a received body is
handed to `serde_json::from_slice`. -/
def get_with_header (dec : Json → Option α) : TransportOutcome → Except Error α
  | .requestError => .error .Hyper
  | .bodyError => .error .Hyper
  | .body bytes => from_slice dec bytes

/-- Main client type (`struct ImgurClient`); only the credential is
data, the hyper client handle is the transport capability. -/
structure ImgurClient where
  client_id : String

/-- The fixed API base URL (`const API` in `src/lib.rs`). -/
def API : String := "https://api.imgur.com/3"

/-- The header value set by `get_with_header`:
`format!("Client-ID {}", self.client_id)`. -/
def ImgurClient.authorization (c : ImgurClient) : String :=
  "Client-ID " ++ c.client_id

/-- Characters accepted by the external `hyper` `Uri` parser, per
RFC 3986: letters, digits, and the punctuation valid in a URI
(unreserved marks, sub-delims, `:`/`@`/`/`/`?`/`#` and the `%` of
percent-escapes).  Whitespace and control characters in particular are
rejected, so `"… ".parse::<Uri>()` is an `Err` and the source's
`.unwrap()` on it panics. -/
def isUriChar (c : Char) : Bool :=
  c.isAlphanum || c == '-' || c == '.' || c == '_' || c == '~' ||
  c == '!' || c == '$' || c == '&' || c == '\x27' || c == '(' ||
  c == ')' || c == '*' || c == '+' || c == ',' || c == ';' ||
  c == '=' || c == ':' || c == '@' || c == '/' || c == '?' ||
  c == '#' || c == '%'

/-- The URI parse underlying `format!(…).parse().unwrap()`: the URL
string is accepted iff all its characters are URI characters. -/
def uriParse (url : String) : Option String :=
  if url.data.all isUriChar then some url else none

/-- `ImgurClient::image`: builds `{API}/image/{id}`, unwraps the URI
parse (`none` models the panic aborting the call when the parse fails),
and delegates to the decode pipeline. -/
def ImgurClient.image (_c : ImgurClient) (id : String)
    (t : TransportOutcome) : Option (Except Error (Response Image)) :=
  (uriParse (API ++ "/image/" ++ id)).map fun _ =>
    get_with_header (decodeResponse decodeImage) t

/-- `ImgurClient::album`: builds `{API}/album/{id}` and proceeds like
`image`. -/
def ImgurClient.album (_c : ImgurClient) (album_id : String)
    (t : TransportOutcome) : Option (Except Error (Response Album)) :=
  (uriParse (API ++ "/album/" ++ album_id)).map fun _ =>
    get_with_header (decodeResponse decodeAlbum) t

/-- `ImgurClient::album_images`: builds `{API}/album/{id}/images` and
proceeds like `image`, with a `Vec<Image>` payload. -/
def ImgurClient.album_images (_c : ImgurClient) (album_id : String)
    (t : TransportOutcome) : Option (Except Error (Response (List Image))) :=
  (uriParse (API ++ "/album/" ++ album_id ++ "/images")).map fun _ =>
    get_with_header (decodeResponse (decodeList decodeImage)) t

/-! Display formatting of `ApiError`. -/

/-- Interleave the pieces around `format!` placeholders with the
arguments, in order. -/
def interleave : List String → List String → String
  | [], _ => ""
  | p :: ps, [] => p ++ interleave ps []
  | p :: ps, x :: xs => p ++ x ++ interleave ps xs

/-- Split a `format!` template at each empty-brace placeholder, keeping
the literal segments. -/
def splitPlaceholders : List Char → List (List Char)
  | [] => [[]]
  | '\x7b' :: '\x7d' :: rest => [] :: splitPlaceholders rest
  | c :: rest =>
    match splitPlaceholders rest with
    | seg :: segs => (c :: seg) :: segs
    | [] => [[c]]

/-- Rust `format!`-style interpolation, restricted to what the source
uses: each empty-brace placeholder is replaced by the next argument. -/
def rustFormat (template : String) (args : List String) : String :=
  interleave ((splitPlaceholders template.data).map String.mk) args

/-- The `fmt::Display` impl for `ApiError`:
`write!(f, "Request \x7b\x7d \x7b\x7d failed: \x7b\x7d", self.method,
self.request, self.error)`. -/
def ApiError.display (e : ApiError) : String :=
  rustFormat "Request \x7b\x7d \x7b\x7d failed: \x7b\x7d"
    [e.method, e.request, e.error]

/-! Concrete example values (used to instantiate the general theorems
below at closed inputs). -/

/-- The API error body of the spec's scenario 3. -/
def apiErrorExample : ApiError :=
  { error := "Album not found", request := "/3/album/cXz/images",
    method := "GET" }

/-- The JSON object encoding `apiErrorExample`. -/
def apiErrorJsonExample : Json := encodeApiError apiErrorExample

/-- A concrete image record (the id of the spec's scenario 1). -/
def imageExample : Image :=
  { account_id := none, account_url := some "someone", ad_type := 0,
    ad_url := "", animated := false, bandwidth := 42,
    datetime := 1500000000, description := none, favorite := false,
    height := 100, id := "PE2NI", in_gallery := false,
    in_most_viral := false, is_ad := false,
    link := "https://i.imgur.com/PE2NI.jpg", nsfw := some false,
    «section» := none, size := 12345, tags := ["cat", "dog"],
    title := some "a title", views := 7, vote := none, width := 200 }

/-- The JSON object encoding `imageExample`. -/
def imageJsonExample : Json := encodeImage imageExample

/-- A concrete album record with no inlined images (the id of the
spec's scenarios 2-4). -/
def albumExample : Album :=
  { id := "cXz3n", title := "an album", description := "", datetime := 1500000000,
    cover := "PE2NI", cover_width := 200, cover_height := 100,
    account_url := none, privacy := "public", layout := "blog",
    views := 9, link := "https://imgur.com/a/cXz3n", favorite := false,
    nsfw := none, «section» := none, order := 0, deletehash := none,
    images_count := 6, images := none, in_gallery := false }

/-! Helper lemmas. -/

@[simp]
theorem obind_some (a : α) (f : α → Option β) : obind (some a) f = f a := rfl

@[simp]
theorem obind_none (f : α → Option β) : obind (none : Option α) f = none := rfl

@[simp]
theorem decodeList_nil (dec : Json → Option α) :
    decodeList dec (.arr []) = some [] := rfl

@[simp]
theorem decodeU32_num (n : Nat) :
    decodeU32 (.num n) = if n < 2 ^ 32 then some n else none := by
  by_cases h : n < 2 ^ 32
  · have h0 : (0 : Int) ≤ (n : Int) := Int.natCast_nonneg n
    have h1 : (n : Int) < 2 ^ 32 := by exact_mod_cast h
    simp [decodeU32, h0, h1, h]
  · have h1 : ¬ (n : Int) < 2 ^ 32 := by exact_mod_cast h
    simp [decodeU32, h1, h]

@[simp]
theorem decodeUsize_num (n : Nat) :
    decodeUsize (.num n) = if n < 2 ^ 64 then some n else none := by
  by_cases h : n < 2 ^ 64
  · have h0 : (0 : Int) ≤ (n : Int) := Int.natCast_nonneg n
    have h1 : (n : Int) < 2 ^ 64 := by exact_mod_cast h
    simp [decodeUsize, h0, h1, h]
  · have h1 : ¬ (n : Int) < 2 ^ 64 := by exact_mod_cast h
    simp [decodeUsize, h1, h]

@[simp]
theorem decodeNullable_null (dec : Json → Option α) :
    decodeNullable dec .null = some none := rfl

@[simp]
theorem decodeNullable_encode_str (o : Option String) :
    decodeNullable decodeString (encodeNullable .str o) = some o := by
  cases o <;> rfl

@[simp]
theorem decodeNullable_encode_bool (o : Option Bool) :
    decodeNullable decodeBool (encodeNullable .bool o) = some o := by
  cases o <;> rfl

theorem countKey_eq_count (fs : List (String × Json)) (k : String) :
    countKey fs k = (fs.map Prod.fst).count k := by
  induction fs with
  | nil => rfl
  | cons p rest ih =>
    cases p with
    | mk k' v =>
      by_cases h : k' == k <;>
        simp [countKey, List.count_cons, ih, h, Nat.add_comm]

theorem reqField_eq (fs : List (String × Json)) (k : String)
    (dec : Json → Option α) (v : Json)
    (h1 : countKey fs k = 1) (h2 : lookupKey fs k = some v) :
    reqField fs k dec = dec v := by
  simp [reqField, h1, h2]

theorem optField_present (fs : List (String × Json)) (k : String)
    (dec : Json → Option α) (v : Json)
    (h1 : countKey fs k = 1) (h2 : lookupKey fs k = some v) :
    optField fs k dec = decodeNullable dec v := by
  simp [optField, h1, h2]

theorem optField_missing (fs : List (String × Json)) (k : String)
    (dec : Json → Option α) (h1 : countKey fs k = 0) :
    optField fs k dec = some none := by
  simp [optField, h1]

theorem decodeResponse_obj_success (dec : Json → Option α)
    (sj bj dj : Json) (st : Nat) (su : Bool) (t : α)
    (hs : decodeUsize sj = some st) (hb : decodeBool bj = some su)
    (hd : dec dj = some t) :
    decodeResponse dec (.obj [("status", sj), ("success", bj), ("data", dj)])
      = some { status := st, success := su, data := .Success t } := by
  simp [decodeResponse, reqField, countKey, lookupKey, decodeResponseData,
        hs, hb, hd]


theorem decodeList_mapM (dec : Json → Option α) (enc : α → Json)
    (xs : List α) (h : ∀ x ∈ xs, dec (enc x) = some x) :
    decodeList dec (.arr (xs.map enc)) = some xs := by
  induction xs with
  | nil => rfl
  | cons x rest ih =>
    have hx : dec (enc x) = some x := h x (by simp)
    have hrest : decodeList dec (.arr (rest.map enc)) = some rest :=
      ih (fun y hy => h y (by simp [hy]))
    simp only [decodeList, List.map_cons, decodeElems] at *
    simp [hx, hrest]

theorem decodeList_encode_str (xs : List String) :
    decodeList decodeString (.arr (xs.map .str)) = some xs :=
  decodeList_mapM decodeString .str xs (fun _ _ => rfl)

/-- Decoding the serialized form of an image record recovers every
field (the per-field engine of the round-trip). -/
theorem decodeImage_encode_fields
    (adu idd lnk : String) (tgs : List String)
    (ani fav ing imv isa : Bool)
    (adt bw dtt hei siz vws wid : Nat)
    (aci acu dsc sec ttl vot : Option String) (nsf : Option Bool)
    (hadt : adt < 2 ^ 32) (hbw : bw < 2 ^ 32) (hdtt : dtt < 2 ^ 32)
    (hhei : hei < 2 ^ 32) (hsiz : siz < 2 ^ 32) (hvws : vws < 2 ^ 32)
    (hwid : wid < 2 ^ 32) :
    decodeImage (.obj [("account_id", encodeNullable .str aci), ("account_url", encodeNullable .str acu), ("ad_type", .num adt), ("ad_url", .str adu), ("animated", .bool ani), ("bandwidth", .num bw), ("datetime", .num dtt), ("description", encodeNullable .str dsc), ("favorite", .bool fav), ("height", .num hei), ("id", .str idd), ("in_gallery", .bool ing), ("in_most_viral", .bool imv), ("is_ad", .bool isa), ("link", .str lnk), ("nsfw", encodeNullable .bool nsf), ("section", encodeNullable .str sec), ("size", .num siz), ("tags", .arr (tgs.map .str)), ("title", encodeNullable .str ttl), ("views", .num vws), ("vote", encodeNullable .str vot), ("width", .num wid)])
      = some { account_id := aci, account_url := acu, ad_type := adt, ad_url := adu, animated := ani, bandwidth := bw, datetime := dtt, description := dsc, favorite := fav, height := hei, id := idd, in_gallery := ing, in_most_viral := imv, is_ad := isa, link := lnk, nsfw := nsf, «section» := sec, size := siz, tags := tgs, title := ttl, views := vws, vote := vot, width := wid } := by
  have hmap : ([("account_id", encodeNullable .str aci), ("account_url", encodeNullable .str acu), ("ad_type", .num adt), ("ad_url", .str adu), ("animated", .bool ani), ("bandwidth", .num bw), ("datetime", .num dtt), ("description", encodeNullable .str dsc), ("favorite", .bool fav), ("height", .num hei), ("id", .str idd), ("in_gallery", .bool ing), ("in_most_viral", .bool imv), ("is_ad", .bool isa), ("link", .str lnk), ("nsfw", encodeNullable .bool nsf), ("section", encodeNullable .str sec), ("size", .num siz), ("tags", .arr (tgs.map .str)), ("title", encodeNullable .str ttl), ("views", .num vws), ("vote", encodeNullable .str vot), ("width", .num wid)] : List (String × Json)).map Prod.fst
      = ["account_id", "account_url", "ad_type", "ad_url", "animated", "bandwidth", "datetime", "description", "favorite", "height", "id", "in_gallery", "in_most_viral", "is_ad", "link", "nsfw", "section", "size", "tags", "title", "views", "vote", "width"] := rfl
  have hl0 : lookupKey [("account_id", encodeNullable .str aci), ("account_url", encodeNullable .str acu), ("ad_type", .num adt), ("ad_url", .str adu), ("animated", .bool ani), ("bandwidth", .num bw), ("datetime", .num dtt), ("description", encodeNullable .str dsc), ("favorite", .bool fav), ("height", .num hei), ("id", .str idd), ("in_gallery", .bool ing), ("in_most_viral", .bool imv), ("is_ad", .bool isa), ("link", .str lnk), ("nsfw", encodeNullable .bool nsf), ("section", encodeNullable .str sec), ("size", .num siz), ("tags", .arr (tgs.map .str)), ("title", encodeNullable .str ttl), ("views", .num vws), ("vote", encodeNullable .str vot), ("width", .num wid)] "account_id" = some (encodeNullable .str aci) := rfl
  have h0 : optField [("account_id", encodeNullable .str aci), ("account_url", encodeNullable .str acu), ("ad_type", .num adt), ("ad_url", .str adu), ("animated", .bool ani), ("bandwidth", .num bw), ("datetime", .num dtt), ("description", encodeNullable .str dsc), ("favorite", .bool fav), ("height", .num hei), ("id", .str idd), ("in_gallery", .bool ing), ("in_most_viral", .bool imv), ("is_ad", .bool isa), ("link", .str lnk), ("nsfw", encodeNullable .bool nsf), ("section", encodeNullable .str sec), ("size", .num siz), ("tags", .arr (tgs.map .str)), ("title", encodeNullable .str ttl), ("views", .num vws), ("vote", encodeNullable .str vot), ("width", .num wid)] "account_id" decodeString = some aci := by
    rw [optField_present _ _ _ _ (by rw [countKey_eq_count, hmap]; rfl) hl0]
    exact decodeNullable_encode_str aci
  have hl1 : lookupKey [("account_id", encodeNullable .str aci), ("account_url", encodeNullable .str acu), ("ad_type", .num adt), ("ad_url", .str adu), ("animated", .bool ani), ("bandwidth", .num bw), ("datetime", .num dtt), ("description", encodeNullable .str dsc), ("favorite", .bool fav), ("height", .num hei), ("id", .str idd), ("in_gallery", .bool ing), ("in_most_viral", .bool imv), ("is_ad", .bool isa), ("link", .str lnk), ("nsfw", encodeNullable .bool nsf), ("section", encodeNullable .str sec), ("size", .num siz), ("tags", .arr (tgs.map .str)), ("title", encodeNullable .str ttl), ("views", .num vws), ("vote", encodeNullable .str vot), ("width", .num wid)] "account_url" = some (encodeNullable .str acu) := rfl
  have h1 : optField [("account_id", encodeNullable .str aci), ("account_url", encodeNullable .str acu), ("ad_type", .num adt), ("ad_url", .str adu), ("animated", .bool ani), ("bandwidth", .num bw), ("datetime", .num dtt), ("description", encodeNullable .str dsc), ("favorite", .bool fav), ("height", .num hei), ("id", .str idd), ("in_gallery", .bool ing), ("in_most_viral", .bool imv), ("is_ad", .bool isa), ("link", .str lnk), ("nsfw", encodeNullable .bool nsf), ("section", encodeNullable .str sec), ("size", .num siz), ("tags", .arr (tgs.map .str)), ("title", encodeNullable .str ttl), ("views", .num vws), ("vote", encodeNullable .str vot), ("width", .num wid)] "account_url" decodeString = some acu := by
    rw [optField_present _ _ _ _ (by rw [countKey_eq_count, hmap]; rfl) hl1]
    exact decodeNullable_encode_str acu
  have hl2 : lookupKey [("account_id", encodeNullable .str aci), ("account_url", encodeNullable .str acu), ("ad_type", .num adt), ("ad_url", .str adu), ("animated", .bool ani), ("bandwidth", .num bw), ("datetime", .num dtt), ("description", encodeNullable .str dsc), ("favorite", .bool fav), ("height", .num hei), ("id", .str idd), ("in_gallery", .bool ing), ("in_most_viral", .bool imv), ("is_ad", .bool isa), ("link", .str lnk), ("nsfw", encodeNullable .bool nsf), ("section", encodeNullable .str sec), ("size", .num siz), ("tags", .arr (tgs.map .str)), ("title", encodeNullable .str ttl), ("views", .num vws), ("vote", encodeNullable .str vot), ("width", .num wid)] "ad_type" = some (.num adt) := rfl
  have h2 : reqField [("account_id", encodeNullable .str aci), ("account_url", encodeNullable .str acu), ("ad_type", .num adt), ("ad_url", .str adu), ("animated", .bool ani), ("bandwidth", .num bw), ("datetime", .num dtt), ("description", encodeNullable .str dsc), ("favorite", .bool fav), ("height", .num hei), ("id", .str idd), ("in_gallery", .bool ing), ("in_most_viral", .bool imv), ("is_ad", .bool isa), ("link", .str lnk), ("nsfw", encodeNullable .bool nsf), ("section", encodeNullable .str sec), ("size", .num siz), ("tags", .arr (tgs.map .str)), ("title", encodeNullable .str ttl), ("views", .num vws), ("vote", encodeNullable .str vot), ("width", .num wid)] "ad_type" decodeU32 = some (adt : _) := by
    rw [reqField_eq _ _ _ _ (by rw [countKey_eq_count, hmap]; rfl) hl2]
    rw [decodeU32_num, if_pos hadt]
  have hl3 : lookupKey [("account_id", encodeNullable .str aci), ("account_url", encodeNullable .str acu), ("ad_type", .num adt), ("ad_url", .str adu), ("animated", .bool ani), ("bandwidth", .num bw), ("datetime", .num dtt), ("description", encodeNullable .str dsc), ("favorite", .bool fav), ("height", .num hei), ("id", .str idd), ("in_gallery", .bool ing), ("in_most_viral", .bool imv), ("is_ad", .bool isa), ("link", .str lnk), ("nsfw", encodeNullable .bool nsf), ("section", encodeNullable .str sec), ("size", .num siz), ("tags", .arr (tgs.map .str)), ("title", encodeNullable .str ttl), ("views", .num vws), ("vote", encodeNullable .str vot), ("width", .num wid)] "ad_url" = some (.str adu) := rfl
  have h3 : reqField [("account_id", encodeNullable .str aci), ("account_url", encodeNullable .str acu), ("ad_type", .num adt), ("ad_url", .str adu), ("animated", .bool ani), ("bandwidth", .num bw), ("datetime", .num dtt), ("description", encodeNullable .str dsc), ("favorite", .bool fav), ("height", .num hei), ("id", .str idd), ("in_gallery", .bool ing), ("in_most_viral", .bool imv), ("is_ad", .bool isa), ("link", .str lnk), ("nsfw", encodeNullable .bool nsf), ("section", encodeNullable .str sec), ("size", .num siz), ("tags", .arr (tgs.map .str)), ("title", encodeNullable .str ttl), ("views", .num vws), ("vote", encodeNullable .str vot), ("width", .num wid)] "ad_url" decodeString = some (adu : _) := by
    rw [reqField_eq _ _ _ _ (by rw [countKey_eq_count, hmap]; rfl) hl3]
    rfl
  have hl4 : lookupKey [("account_id", encodeNullable .str aci), ("account_url", encodeNullable .str acu), ("ad_type", .num adt), ("ad_url", .str adu), ("animated", .bool ani), ("bandwidth", .num bw), ("datetime", .num dtt), ("description", encodeNullable .str dsc), ("favorite", .bool fav), ("height", .num hei), ("id", .str idd), ("in_gallery", .bool ing), ("in_most_viral", .bool imv), ("is_ad", .bool isa), ("link", .str lnk), ("nsfw", encodeNullable .bool nsf), ("section", encodeNullable .str sec), ("size", .num siz), ("tags", .arr (tgs.map .str)), ("title", encodeNullable .str ttl), ("views", .num vws), ("vote", encodeNullable .str vot), ("width", .num wid)] "animated" = some (.bool ani) := rfl
  have h4 : reqField [("account_id", encodeNullable .str aci), ("account_url", encodeNullable .str acu), ("ad_type", .num adt), ("ad_url", .str adu), ("animated", .bool ani), ("bandwidth", .num bw), ("datetime", .num dtt), ("description", encodeNullable .str dsc), ("favorite", .bool fav), ("height", .num hei), ("id", .str idd), ("in_gallery", .bool ing), ("in_most_viral", .bool imv), ("is_ad", .bool isa), ("link", .str lnk), ("nsfw", encodeNullable .bool nsf), ("section", encodeNullable .str sec), ("size", .num siz), ("tags", .arr (tgs.map .str)), ("title", encodeNullable .str ttl), ("views", .num vws), ("vote", encodeNullable .str vot), ("width", .num wid)] "animated" decodeBool = some (ani : _) := by
    rw [reqField_eq _ _ _ _ (by rw [countKey_eq_count, hmap]; rfl) hl4]
    rfl
  have hl5 : lookupKey [("account_id", encodeNullable .str aci), ("account_url", encodeNullable .str acu), ("ad_type", .num adt), ("ad_url", .str adu), ("animated", .bool ani), ("bandwidth", .num bw), ("datetime", .num dtt), ("description", encodeNullable .str dsc), ("favorite", .bool fav), ("height", .num hei), ("id", .str idd), ("in_gallery", .bool ing), ("in_most_viral", .bool imv), ("is_ad", .bool isa), ("link", .str lnk), ("nsfw", encodeNullable .bool nsf), ("section", encodeNullable .str sec), ("size", .num siz), ("tags", .arr (tgs.map .str)), ("title", encodeNullable .str ttl), ("views", .num vws), ("vote", encodeNullable .str vot), ("width", .num wid)] "bandwidth" = some (.num bw) := rfl
  have h5 : reqField [("account_id", encodeNullable .str aci), ("account_url", encodeNullable .str acu), ("ad_type", .num adt), ("ad_url", .str adu), ("animated", .bool ani), ("bandwidth", .num bw), ("datetime", .num dtt), ("description", encodeNullable .str dsc), ("favorite", .bool fav), ("height", .num hei), ("id", .str idd), ("in_gallery", .bool ing), ("in_most_viral", .bool imv), ("is_ad", .bool isa), ("link", .str lnk), ("nsfw", encodeNullable .bool nsf), ("section", encodeNullable .str sec), ("size", .num siz), ("tags", .arr (tgs.map .str)), ("title", encodeNullable .str ttl), ("views", .num vws), ("vote", encodeNullable .str vot), ("width", .num wid)] "bandwidth" decodeU32 = some (bw : _) := by
    rw [reqField_eq _ _ _ _ (by rw [countKey_eq_count, hmap]; rfl) hl5]
    rw [decodeU32_num, if_pos hbw]
  have hl6 : lookupKey [("account_id", encodeNullable .str aci), ("account_url", encodeNullable .str acu), ("ad_type", .num adt), ("ad_url", .str adu), ("animated", .bool ani), ("bandwidth", .num bw), ("datetime", .num dtt), ("description", encodeNullable .str dsc), ("favorite", .bool fav), ("height", .num hei), ("id", .str idd), ("in_gallery", .bool ing), ("in_most_viral", .bool imv), ("is_ad", .bool isa), ("link", .str lnk), ("nsfw", encodeNullable .bool nsf), ("section", encodeNullable .str sec), ("size", .num siz), ("tags", .arr (tgs.map .str)), ("title", encodeNullable .str ttl), ("views", .num vws), ("vote", encodeNullable .str vot), ("width", .num wid)] "datetime" = some (.num dtt) := rfl
  have h6 : reqField [("account_id", encodeNullable .str aci), ("account_url", encodeNullable .str acu), ("ad_type", .num adt), ("ad_url", .str adu), ("animated", .bool ani), ("bandwidth", .num bw), ("datetime", .num dtt), ("description", encodeNullable .str dsc), ("favorite", .bool fav), ("height", .num hei), ("id", .str idd), ("in_gallery", .bool ing), ("in_most_viral", .bool imv), ("is_ad", .bool isa), ("link", .str lnk), ("nsfw", encodeNullable .bool nsf), ("section", encodeNullable .str sec), ("size", .num siz), ("tags", .arr (tgs.map .str)), ("title", encodeNullable .str ttl), ("views", .num vws), ("vote", encodeNullable .str vot), ("width", .num wid)] "datetime" decodeU32 = some (dtt : _) := by
    rw [reqField_eq _ _ _ _ (by rw [countKey_eq_count, hmap]; rfl) hl6]
    rw [decodeU32_num, if_pos hdtt]
  have hl7 : lookupKey [("account_id", encodeNullable .str aci), ("account_url", encodeNullable .str acu), ("ad_type", .num adt), ("ad_url", .str adu), ("animated", .bool ani), ("bandwidth", .num bw), ("datetime", .num dtt), ("description", encodeNullable .str dsc), ("favorite", .bool fav), ("height", .num hei), ("id", .str idd), ("in_gallery", .bool ing), ("in_most_viral", .bool imv), ("is_ad", .bool isa), ("link", .str lnk), ("nsfw", encodeNullable .bool nsf), ("section", encodeNullable .str sec), ("size", .num siz), ("tags", .arr (tgs.map .str)), ("title", encodeNullable .str ttl), ("views", .num vws), ("vote", encodeNullable .str vot), ("width", .num wid)] "description" = some (encodeNullable .str dsc) := rfl
  have h7 : optField [("account_id", encodeNullable .str aci), ("account_url", encodeNullable .str acu), ("ad_type", .num adt), ("ad_url", .str adu), ("animated", .bool ani), ("bandwidth", .num bw), ("datetime", .num dtt), ("description", encodeNullable .str dsc), ("favorite", .bool fav), ("height", .num hei), ("id", .str idd), ("in_gallery", .bool ing), ("in_most_viral", .bool imv), ("is_ad", .bool isa), ("link", .str lnk), ("nsfw", encodeNullable .bool nsf), ("section", encodeNullable .str sec), ("size", .num siz), ("tags", .arr (tgs.map .str)), ("title", encodeNullable .str ttl), ("views", .num vws), ("vote", encodeNullable .str vot), ("width", .num wid)] "description" decodeString = some dsc := by
    rw [optField_present _ _ _ _ (by rw [countKey_eq_count, hmap]; rfl) hl7]
    exact decodeNullable_encode_str dsc
  have hl8 : lookupKey [("account_id", encodeNullable .str aci), ("account_url", encodeNullable .str acu), ("ad_type", .num adt), ("ad_url", .str adu), ("animated", .bool ani), ("bandwidth", .num bw), ("datetime", .num dtt), ("description", encodeNullable .str dsc), ("favorite", .bool fav), ("height", .num hei), ("id", .str idd), ("in_gallery", .bool ing), ("in_most_viral", .bool imv), ("is_ad", .bool isa), ("link", .str lnk), ("nsfw", encodeNullable .bool nsf), ("section", encodeNullable .str sec), ("size", .num siz), ("tags", .arr (tgs.map .str)), ("title", encodeNullable .str ttl), ("views", .num vws), ("vote", encodeNullable .str vot), ("width", .num wid)] "favorite" = some (.bool fav) := rfl
  have h8 : reqField [("account_id", encodeNullable .str aci), ("account_url", encodeNullable .str acu), ("ad_type", .num adt), ("ad_url", .str adu), ("animated", .bool ani), ("bandwidth", .num bw), ("datetime", .num dtt), ("description", encodeNullable .str dsc), ("favorite", .bool fav), ("height", .num hei), ("id", .str idd), ("in_gallery", .bool ing), ("in_most_viral", .bool imv), ("is_ad", .bool isa), ("link", .str lnk), ("nsfw", encodeNullable .bool nsf), ("section", encodeNullable .str sec), ("size", .num siz), ("tags", .arr (tgs.map .str)), ("title", encodeNullable .str ttl), ("views", .num vws), ("vote", encodeNullable .str vot), ("width", .num wid)] "favorite" decodeBool = some (fav : _) := by
    rw [reqField_eq _ _ _ _ (by rw [countKey_eq_count, hmap]; rfl) hl8]
    rfl
  have hl9 : lookupKey [("account_id", encodeNullable .str aci), ("account_url", encodeNullable .str acu), ("ad_type", .num adt), ("ad_url", .str adu), ("animated", .bool ani), ("bandwidth", .num bw), ("datetime", .num dtt), ("description", encodeNullable .str dsc), ("favorite", .bool fav), ("height", .num hei), ("id", .str idd), ("in_gallery", .bool ing), ("in_most_viral", .bool imv), ("is_ad", .bool isa), ("link", .str lnk), ("nsfw", encodeNullable .bool nsf), ("section", encodeNullable .str sec), ("size", .num siz), ("tags", .arr (tgs.map .str)), ("title", encodeNullable .str ttl), ("views", .num vws), ("vote", encodeNullable .str vot), ("width", .num wid)] "height" = some (.num hei) := rfl
  have h9 : reqField [("account_id", encodeNullable .str aci), ("account_url", encodeNullable .str acu), ("ad_type", .num adt), ("ad_url", .str adu), ("animated", .bool ani), ("bandwidth", .num bw), ("datetime", .num dtt), ("description", encodeNullable .str dsc), ("favorite", .bool fav), ("height", .num hei), ("id", .str idd), ("in_gallery", .bool ing), ("in_most_viral", .bool imv), ("is_ad", .bool isa), ("link", .str lnk), ("nsfw", encodeNullable .bool nsf), ("section", encodeNullable .str sec), ("size", .num siz), ("tags", .arr (tgs.map .str)), ("title", encodeNullable .str ttl), ("views", .num vws), ("vote", encodeNullable .str vot), ("width", .num wid)] "height" decodeU32 = some (hei : _) := by
    rw [reqField_eq _ _ _ _ (by rw [countKey_eq_count, hmap]; rfl) hl9]
    rw [decodeU32_num, if_pos hhei]
  have hl10 : lookupKey [("account_id", encodeNullable .str aci), ("account_url", encodeNullable .str acu), ("ad_type", .num adt), ("ad_url", .str adu), ("animated", .bool ani), ("bandwidth", .num bw), ("datetime", .num dtt), ("description", encodeNullable .str dsc), ("favorite", .bool fav), ("height", .num hei), ("id", .str idd), ("in_gallery", .bool ing), ("in_most_viral", .bool imv), ("is_ad", .bool isa), ("link", .str lnk), ("nsfw", encodeNullable .bool nsf), ("section", encodeNullable .str sec), ("size", .num siz), ("tags", .arr (tgs.map .str)), ("title", encodeNullable .str ttl), ("views", .num vws), ("vote", encodeNullable .str vot), ("width", .num wid)] "id" = some (.str idd) := rfl
  have h10 : reqField [("account_id", encodeNullable .str aci), ("account_url", encodeNullable .str acu), ("ad_type", .num adt), ("ad_url", .str adu), ("animated", .bool ani), ("bandwidth", .num bw), ("datetime", .num dtt), ("description", encodeNullable .str dsc), ("favorite", .bool fav), ("height", .num hei), ("id", .str idd), ("in_gallery", .bool ing), ("in_most_viral", .bool imv), ("is_ad", .bool isa), ("link", .str lnk), ("nsfw", encodeNullable .bool nsf), ("section", encodeNullable .str sec), ("size", .num siz), ("tags", .arr (tgs.map .str)), ("title", encodeNullable .str ttl), ("views", .num vws), ("vote", encodeNullable .str vot), ("width", .num wid)] "id" decodeString = some (idd : _) := by
    rw [reqField_eq _ _ _ _ (by rw [countKey_eq_count, hmap]; rfl) hl10]
    rfl
  have hl11 : lookupKey [("account_id", encodeNullable .str aci), ("account_url", encodeNullable .str acu), ("ad_type", .num adt), ("ad_url", .str adu), ("animated", .bool ani), ("bandwidth", .num bw), ("datetime", .num dtt), ("description", encodeNullable .str dsc), ("favorite", .bool fav), ("height", .num hei), ("id", .str idd), ("in_gallery", .bool ing), ("in_most_viral", .bool imv), ("is_ad", .bool isa), ("link", .str lnk), ("nsfw", encodeNullable .bool nsf), ("section", encodeNullable .str sec), ("size", .num siz), ("tags", .arr (tgs.map .str)), ("title", encodeNullable .str ttl), ("views", .num vws), ("vote", encodeNullable .str vot), ("width", .num wid)] "in_gallery" = some (.bool ing) := rfl
  have h11 : reqField [("account_id", encodeNullable .str aci), ("account_url", encodeNullable .str acu), ("ad_type", .num adt), ("ad_url", .str adu), ("animated", .bool ani), ("bandwidth", .num bw), ("datetime", .num dtt), ("description", encodeNullable .str dsc), ("favorite", .bool fav), ("height", .num hei), ("id", .str idd), ("in_gallery", .bool ing), ("in_most_viral", .bool imv), ("is_ad", .bool isa), ("link", .str lnk), ("nsfw", encodeNullable .bool nsf), ("section", encodeNullable .str sec), ("size", .num siz), ("tags", .arr (tgs.map .str)), ("title", encodeNullable .str ttl), ("views", .num vws), ("vote", encodeNullable .str vot), ("width", .num wid)] "in_gallery" decodeBool = some (ing : _) := by
    rw [reqField_eq _ _ _ _ (by rw [countKey_eq_count, hmap]; rfl) hl11]
    rfl
  have hl12 : lookupKey [("account_id", encodeNullable .str aci), ("account_url", encodeNullable .str acu), ("ad_type", .num adt), ("ad_url", .str adu), ("animated", .bool ani), ("bandwidth", .num bw), ("datetime", .num dtt), ("description", encodeNullable .str dsc), ("favorite", .bool fav), ("height", .num hei), ("id", .str idd), ("in_gallery", .bool ing), ("in_most_viral", .bool imv), ("is_ad", .bool isa), ("link", .str lnk), ("nsfw", encodeNullable .bool nsf), ("section", encodeNullable .str sec), ("size", .num siz), ("tags", .arr (tgs.map .str)), ("title", encodeNullable .str ttl), ("views", .num vws), ("vote", encodeNullable .str vot), ("width", .num wid)] "in_most_viral" = some (.bool imv) := rfl
  have h12 : reqField [("account_id", encodeNullable .str aci), ("account_url", encodeNullable .str acu), ("ad_type", .num adt), ("ad_url", .str adu), ("animated", .bool ani), ("bandwidth", .num bw), ("datetime", .num dtt), ("description", encodeNullable .str dsc), ("favorite", .bool fav), ("height", .num hei), ("id", .str idd), ("in_gallery", .bool ing), ("in_most_viral", .bool imv), ("is_ad", .bool isa), ("link", .str lnk), ("nsfw", encodeNullable .bool nsf), ("section", encodeNullable .str sec), ("size", .num siz), ("tags", .arr (tgs.map .str)), ("title", encodeNullable .str ttl), ("views", .num vws), ("vote", encodeNullable .str vot), ("width", .num wid)] "in_most_viral" decodeBool = some (imv : _) := by
    rw [reqField_eq _ _ _ _ (by rw [countKey_eq_count, hmap]; rfl) hl12]
    rfl
  have hl13 : lookupKey [("account_id", encodeNullable .str aci), ("account_url", encodeNullable .str acu), ("ad_type", .num adt), ("ad_url", .str adu), ("animated", .bool ani), ("bandwidth", .num bw), ("datetime", .num dtt), ("description", encodeNullable .str dsc), ("favorite", .bool fav), ("height", .num hei), ("id", .str idd), ("in_gallery", .bool ing), ("in_most_viral", .bool imv), ("is_ad", .bool isa), ("link", .str lnk), ("nsfw", encodeNullable .bool nsf), ("section", encodeNullable .str sec), ("size", .num siz), ("tags", .arr (tgs.map .str)), ("title", encodeNullable .str ttl), ("views", .num vws), ("vote", encodeNullable .str vot), ("width", .num wid)] "is_ad" = some (.bool isa) := rfl
  have h13 : reqField [("account_id", encodeNullable .str aci), ("account_url", encodeNullable .str acu), ("ad_type", .num adt), ("ad_url", .str adu), ("animated", .bool ani), ("bandwidth", .num bw), ("datetime", .num dtt), ("description", encodeNullable .str dsc), ("favorite", .bool fav), ("height", .num hei), ("id", .str idd), ("in_gallery", .bool ing), ("in_most_viral", .bool imv), ("is_ad", .bool isa), ("link", .str lnk), ("nsfw", encodeNullable .bool nsf), ("section", encodeNullable .str sec), ("size", .num siz), ("tags", .arr (tgs.map .str)), ("title", encodeNullable .str ttl), ("views", .num vws), ("vote", encodeNullable .str vot), ("width", .num wid)] "is_ad" decodeBool = some (isa : _) := by
    rw [reqField_eq _ _ _ _ (by rw [countKey_eq_count, hmap]; rfl) hl13]
    rfl
  have hl14 : lookupKey [("account_id", encodeNullable .str aci), ("account_url", encodeNullable .str acu), ("ad_type", .num adt), ("ad_url", .str adu), ("animated", .bool ani), ("bandwidth", .num bw), ("datetime", .num dtt), ("description", encodeNullable .str dsc), ("favorite", .bool fav), ("height", .num hei), ("id", .str idd), ("in_gallery", .bool ing), ("in_most_viral", .bool imv), ("is_ad", .bool isa), ("link", .str lnk), ("nsfw", encodeNullable .bool nsf), ("section", encodeNullable .str sec), ("size", .num siz), ("tags", .arr (tgs.map .str)), ("title", encodeNullable .str ttl), ("views", .num vws), ("vote", encodeNullable .str vot), ("width", .num wid)] "link" = some (.str lnk) := rfl
  have h14 : reqField [("account_id", encodeNullable .str aci), ("account_url", encodeNullable .str acu), ("ad_type", .num adt), ("ad_url", .str adu), ("animated", .bool ani), ("bandwidth", .num bw), ("datetime", .num dtt), ("description", encodeNullable .str dsc), ("favorite", .bool fav), ("height", .num hei), ("id", .str idd), ("in_gallery", .bool ing), ("in_most_viral", .bool imv), ("is_ad", .bool isa), ("link", .str lnk), ("nsfw", encodeNullable .bool nsf), ("section", encodeNullable .str sec), ("size", .num siz), ("tags", .arr (tgs.map .str)), ("title", encodeNullable .str ttl), ("views", .num vws), ("vote", encodeNullable .str vot), ("width", .num wid)] "link" decodeString = some (lnk : _) := by
    rw [reqField_eq _ _ _ _ (by rw [countKey_eq_count, hmap]; rfl) hl14]
    rfl
  have hl15 : lookupKey [("account_id", encodeNullable .str aci), ("account_url", encodeNullable .str acu), ("ad_type", .num adt), ("ad_url", .str adu), ("animated", .bool ani), ("bandwidth", .num bw), ("datetime", .num dtt), ("description", encodeNullable .str dsc), ("favorite", .bool fav), ("height", .num hei), ("id", .str idd), ("in_gallery", .bool ing), ("in_most_viral", .bool imv), ("is_ad", .bool isa), ("link", .str lnk), ("nsfw", encodeNullable .bool nsf), ("section", encodeNullable .str sec), ("size", .num siz), ("tags", .arr (tgs.map .str)), ("title", encodeNullable .str ttl), ("views", .num vws), ("vote", encodeNullable .str vot), ("width", .num wid)] "nsfw" = some (encodeNullable .bool nsf) := rfl
  have h15 : optField [("account_id", encodeNullable .str aci), ("account_url", encodeNullable .str acu), ("ad_type", .num adt), ("ad_url", .str adu), ("animated", .bool ani), ("bandwidth", .num bw), ("datetime", .num dtt), ("description", encodeNullable .str dsc), ("favorite", .bool fav), ("height", .num hei), ("id", .str idd), ("in_gallery", .bool ing), ("in_most_viral", .bool imv), ("is_ad", .bool isa), ("link", .str lnk), ("nsfw", encodeNullable .bool nsf), ("section", encodeNullable .str sec), ("size", .num siz), ("tags", .arr (tgs.map .str)), ("title", encodeNullable .str ttl), ("views", .num vws), ("vote", encodeNullable .str vot), ("width", .num wid)] "nsfw" decodeBool = some nsf := by
    rw [optField_present _ _ _ _ (by rw [countKey_eq_count, hmap]; rfl) hl15]
    exact decodeNullable_encode_bool nsf
  have hl16 : lookupKey [("account_id", encodeNullable .str aci), ("account_url", encodeNullable .str acu), ("ad_type", .num adt), ("ad_url", .str adu), ("animated", .bool ani), ("bandwidth", .num bw), ("datetime", .num dtt), ("description", encodeNullable .str dsc), ("favorite", .bool fav), ("height", .num hei), ("id", .str idd), ("in_gallery", .bool ing), ("in_most_viral", .bool imv), ("is_ad", .bool isa), ("link", .str lnk), ("nsfw", encodeNullable .bool nsf), ("section", encodeNullable .str sec), ("size", .num siz), ("tags", .arr (tgs.map .str)), ("title", encodeNullable .str ttl), ("views", .num vws), ("vote", encodeNullable .str vot), ("width", .num wid)] "section" = some (encodeNullable .str sec) := rfl
  have h16 : optField [("account_id", encodeNullable .str aci), ("account_url", encodeNullable .str acu), ("ad_type", .num adt), ("ad_url", .str adu), ("animated", .bool ani), ("bandwidth", .num bw), ("datetime", .num dtt), ("description", encodeNullable .str dsc), ("favorite", .bool fav), ("height", .num hei), ("id", .str idd), ("in_gallery", .bool ing), ("in_most_viral", .bool imv), ("is_ad", .bool isa), ("link", .str lnk), ("nsfw", encodeNullable .bool nsf), ("section", encodeNullable .str sec), ("size", .num siz), ("tags", .arr (tgs.map .str)), ("title", encodeNullable .str ttl), ("views", .num vws), ("vote", encodeNullable .str vot), ("width", .num wid)] "section" decodeString = some sec := by
    rw [optField_present _ _ _ _ (by rw [countKey_eq_count, hmap]; rfl) hl16]
    exact decodeNullable_encode_str sec
  have hl17 : lookupKey [("account_id", encodeNullable .str aci), ("account_url", encodeNullable .str acu), ("ad_type", .num adt), ("ad_url", .str adu), ("animated", .bool ani), ("bandwidth", .num bw), ("datetime", .num dtt), ("description", encodeNullable .str dsc), ("favorite", .bool fav), ("height", .num hei), ("id", .str idd), ("in_gallery", .bool ing), ("in_most_viral", .bool imv), ("is_ad", .bool isa), ("link", .str lnk), ("nsfw", encodeNullable .bool nsf), ("section", encodeNullable .str sec), ("size", .num siz), ("tags", .arr (tgs.map .str)), ("title", encodeNullable .str ttl), ("views", .num vws), ("vote", encodeNullable .str vot), ("width", .num wid)] "size" = some (.num siz) := rfl
  have h17 : reqField [("account_id", encodeNullable .str aci), ("account_url", encodeNullable .str acu), ("ad_type", .num adt), ("ad_url", .str adu), ("animated", .bool ani), ("bandwidth", .num bw), ("datetime", .num dtt), ("description", encodeNullable .str dsc), ("favorite", .bool fav), ("height", .num hei), ("id", .str idd), ("in_gallery", .bool ing), ("in_most_viral", .bool imv), ("is_ad", .bool isa), ("link", .str lnk), ("nsfw", encodeNullable .bool nsf), ("section", encodeNullable .str sec), ("size", .num siz), ("tags", .arr (tgs.map .str)), ("title", encodeNullable .str ttl), ("views", .num vws), ("vote", encodeNullable .str vot), ("width", .num wid)] "size" decodeU32 = some (siz : _) := by
    rw [reqField_eq _ _ _ _ (by rw [countKey_eq_count, hmap]; rfl) hl17]
    rw [decodeU32_num, if_pos hsiz]
  have hl18 : lookupKey [("account_id", encodeNullable .str aci), ("account_url", encodeNullable .str acu), ("ad_type", .num adt), ("ad_url", .str adu), ("animated", .bool ani), ("bandwidth", .num bw), ("datetime", .num dtt), ("description", encodeNullable .str dsc), ("favorite", .bool fav), ("height", .num hei), ("id", .str idd), ("in_gallery", .bool ing), ("in_most_viral", .bool imv), ("is_ad", .bool isa), ("link", .str lnk), ("nsfw", encodeNullable .bool nsf), ("section", encodeNullable .str sec), ("size", .num siz), ("tags", .arr (tgs.map .str)), ("title", encodeNullable .str ttl), ("views", .num vws), ("vote", encodeNullable .str vot), ("width", .num wid)] "tags" = some (.arr (tgs.map .str)) := rfl
  have h18 : reqField [("account_id", encodeNullable .str aci), ("account_url", encodeNullable .str acu), ("ad_type", .num adt), ("ad_url", .str adu), ("animated", .bool ani), ("bandwidth", .num bw), ("datetime", .num dtt), ("description", encodeNullable .str dsc), ("favorite", .bool fav), ("height", .num hei), ("id", .str idd), ("in_gallery", .bool ing), ("in_most_viral", .bool imv), ("is_ad", .bool isa), ("link", .str lnk), ("nsfw", encodeNullable .bool nsf), ("section", encodeNullable .str sec), ("size", .num siz), ("tags", .arr (tgs.map .str)), ("title", encodeNullable .str ttl), ("views", .num vws), ("vote", encodeNullable .str vot), ("width", .num wid)] "tags" (decodeList decodeString) = some tgs := by
    rw [reqField_eq _ _ _ _ (by rw [countKey_eq_count, hmap]; rfl) hl18]
    exact decodeList_encode_str tgs
  have hl19 : lookupKey [("account_id", encodeNullable .str aci), ("account_url", encodeNullable .str acu), ("ad_type", .num adt), ("ad_url", .str adu), ("animated", .bool ani), ("bandwidth", .num bw), ("datetime", .num dtt), ("description", encodeNullable .str dsc), ("favorite", .bool fav), ("height", .num hei), ("id", .str idd), ("in_gallery", .bool ing), ("in_most_viral", .bool imv), ("is_ad", .bool isa), ("link", .str lnk), ("nsfw", encodeNullable .bool nsf), ("section", encodeNullable .str sec), ("size", .num siz), ("tags", .arr (tgs.map .str)), ("title", encodeNullable .str ttl), ("views", .num vws), ("vote", encodeNullable .str vot), ("width", .num wid)] "title" = some (encodeNullable .str ttl) := rfl
  have h19 : optField [("account_id", encodeNullable .str aci), ("account_url", encodeNullable .str acu), ("ad_type", .num adt), ("ad_url", .str adu), ("animated", .bool ani), ("bandwidth", .num bw), ("datetime", .num dtt), ("description", encodeNullable .str dsc), ("favorite", .bool fav), ("height", .num hei), ("id", .str idd), ("in_gallery", .bool ing), ("in_most_viral", .bool imv), ("is_ad", .bool isa), ("link", .str lnk), ("nsfw", encodeNullable .bool nsf), ("section", encodeNullable .str sec), ("size", .num siz), ("tags", .arr (tgs.map .str)), ("title", encodeNullable .str ttl), ("views", .num vws), ("vote", encodeNullable .str vot), ("width", .num wid)] "title" decodeString = some ttl := by
    rw [optField_present _ _ _ _ (by rw [countKey_eq_count, hmap]; rfl) hl19]
    exact decodeNullable_encode_str ttl
  have hl20 : lookupKey [("account_id", encodeNullable .str aci), ("account_url", encodeNullable .str acu), ("ad_type", .num adt), ("ad_url", .str adu), ("animated", .bool ani), ("bandwidth", .num bw), ("datetime", .num dtt), ("description", encodeNullable .str dsc), ("favorite", .bool fav), ("height", .num hei), ("id", .str idd), ("in_gallery", .bool ing), ("in_most_viral", .bool imv), ("is_ad", .bool isa), ("link", .str lnk), ("nsfw", encodeNullable .bool nsf), ("section", encodeNullable .str sec), ("size", .num siz), ("tags", .arr (tgs.map .str)), ("title", encodeNullable .str ttl), ("views", .num vws), ("vote", encodeNullable .str vot), ("width", .num wid)] "views" = some (.num vws) := rfl
  have h20 : reqField [("account_id", encodeNullable .str aci), ("account_url", encodeNullable .str acu), ("ad_type", .num adt), ("ad_url", .str adu), ("animated", .bool ani), ("bandwidth", .num bw), ("datetime", .num dtt), ("description", encodeNullable .str dsc), ("favorite", .bool fav), ("height", .num hei), ("id", .str idd), ("in_gallery", .bool ing), ("in_most_viral", .bool imv), ("is_ad", .bool isa), ("link", .str lnk), ("nsfw", encodeNullable .bool nsf), ("section", encodeNullable .str sec), ("size", .num siz), ("tags", .arr (tgs.map .str)), ("title", encodeNullable .str ttl), ("views", .num vws), ("vote", encodeNullable .str vot), ("width", .num wid)] "views" decodeU32 = some (vws : _) := by
    rw [reqField_eq _ _ _ _ (by rw [countKey_eq_count, hmap]; rfl) hl20]
    rw [decodeU32_num, if_pos hvws]
  have hl21 : lookupKey [("account_id", encodeNullable .str aci), ("account_url", encodeNullable .str acu), ("ad_type", .num adt), ("ad_url", .str adu), ("animated", .bool ani), ("bandwidth", .num bw), ("datetime", .num dtt), ("description", encodeNullable .str dsc), ("favorite", .bool fav), ("height", .num hei), ("id", .str idd), ("in_gallery", .bool ing), ("in_most_viral", .bool imv), ("is_ad", .bool isa), ("link", .str lnk), ("nsfw", encodeNullable .bool nsf), ("section", encodeNullable .str sec), ("size", .num siz), ("tags", .arr (tgs.map .str)), ("title", encodeNullable .str ttl), ("views", .num vws), ("vote", encodeNullable .str vot), ("width", .num wid)] "vote" = some (encodeNullable .str vot) := rfl
  have h21 : optField [("account_id", encodeNullable .str aci), ("account_url", encodeNullable .str acu), ("ad_type", .num adt), ("ad_url", .str adu), ("animated", .bool ani), ("bandwidth", .num bw), ("datetime", .num dtt), ("description", encodeNullable .str dsc), ("favorite", .bool fav), ("height", .num hei), ("id", .str idd), ("in_gallery", .bool ing), ("in_most_viral", .bool imv), ("is_ad", .bool isa), ("link", .str lnk), ("nsfw", encodeNullable .bool nsf), ("section", encodeNullable .str sec), ("size", .num siz), ("tags", .arr (tgs.map .str)), ("title", encodeNullable .str ttl), ("views", .num vws), ("vote", encodeNullable .str vot), ("width", .num wid)] "vote" decodeString = some vot := by
    rw [optField_present _ _ _ _ (by rw [countKey_eq_count, hmap]; rfl) hl21]
    exact decodeNullable_encode_str vot
  have hl22 : lookupKey [("account_id", encodeNullable .str aci), ("account_url", encodeNullable .str acu), ("ad_type", .num adt), ("ad_url", .str adu), ("animated", .bool ani), ("bandwidth", .num bw), ("datetime", .num dtt), ("description", encodeNullable .str dsc), ("favorite", .bool fav), ("height", .num hei), ("id", .str idd), ("in_gallery", .bool ing), ("in_most_viral", .bool imv), ("is_ad", .bool isa), ("link", .str lnk), ("nsfw", encodeNullable .bool nsf), ("section", encodeNullable .str sec), ("size", .num siz), ("tags", .arr (tgs.map .str)), ("title", encodeNullable .str ttl), ("views", .num vws), ("vote", encodeNullable .str vot), ("width", .num wid)] "width" = some (.num wid) := rfl
  have h22 : reqField [("account_id", encodeNullable .str aci), ("account_url", encodeNullable .str acu), ("ad_type", .num adt), ("ad_url", .str adu), ("animated", .bool ani), ("bandwidth", .num bw), ("datetime", .num dtt), ("description", encodeNullable .str dsc), ("favorite", .bool fav), ("height", .num hei), ("id", .str idd), ("in_gallery", .bool ing), ("in_most_viral", .bool imv), ("is_ad", .bool isa), ("link", .str lnk), ("nsfw", encodeNullable .bool nsf), ("section", encodeNullable .str sec), ("size", .num siz), ("tags", .arr (tgs.map .str)), ("title", encodeNullable .str ttl), ("views", .num vws), ("vote", encodeNullable .str vot), ("width", .num wid)] "width" decodeU32 = some (wid : _) := by
    rw [reqField_eq _ _ _ _ (by rw [countKey_eq_count, hmap]; rfl) hl22]
    rw [decodeU32_num, if_pos hwid]
  simp only [decodeImage, h0, h1, h2, h3, h4, h5, h6, h7, h8, h9, h10, h11, h12, h13, h14, h15, h16, h17, h18, h19, h20, h21, h22, obind_some]


/-- Serializing an image with `serde` and decoding it back is the
identity (the `u32` fields fitting in 32 bits, as they do in Rust). -/
theorem image_roundtrip (i : Image) (h : i.wf) :
    decodeImage (encodeImage i) = some i := by
  obtain ⟨h1, h2, h3, h4, h5, h6, h7⟩ := h
  cases i with
  | mk aci acu adt adu ani bw dtt dsc fav hei idd ing imv isa lnk nsf sec siz tgs ttl vws vot wid =>
    exact decodeImage_encode_fields adu idd lnk tgs ani fav ing imv isa
      adt bw dtt hei siz vws wid aci acu dsc sec ttl vot nsf
      h1 h2 h3 h4 h5 h6 h7

/-- Decoding the serialized form of an album record recovers every
field, given that the serialized `images` value decodes back (the
per-field engine of the album round-trip). -/
theorem decodeAlbum_encode_fields (aid ti de co pr la li : String)
    (fa ig : Bool) (dt cw ch vw od ic : Nat)
    (au se dh : Option String) (nw : Option Bool)
    (imgs : Option (List Image))
    (hdt : dt < 2 ^ 32) (hcw : cw < 2 ^ 32) (hch : ch < 2 ^ 32)
    (hvw : vw < 2 ^ 32) (hod : od < 2 ^ 32) (hic : ic < 2 ^ 32)
    (himgs : decodeNullable (decodeList decodeImage)
      (encodeNullable (fun xs => .arr (xs.map encodeImage)) imgs)
      = some imgs) :
    decodeAlbum (.obj [("id", .str aid), ("title", .str ti), ("description", .str de), ("datetime", .num dt), ("cover", .str co), ("cover_width", .num cw), ("cover_height", .num ch), ("account_url", encodeNullable .str au), ("privacy", .str pr), ("layout", .str la), ("views", .num vw), ("link", .str li), ("favorite", .bool fa), ("nsfw", encodeNullable .bool nw), ("section", encodeNullable .str se), ("order", .num od), ("deletehash", encodeNullable .str dh), ("images_count", .num ic), ("images", encodeNullable (fun xs => .arr (xs.map encodeImage)) imgs), ("in_gallery", .bool ig)])
      = some { id := aid, title := ti, description := de, datetime := dt, cover := co, cover_width := cw, cover_height := ch, account_url := au, privacy := pr, layout := la, views := vw, link := li, favorite := fa, nsfw := nw, «section» := se, order := od, deletehash := dh, images_count := ic, images := imgs, in_gallery := ig } := by
  have hmap : ([("id", .str aid), ("title", .str ti), ("description", .str de), ("datetime", .num dt), ("cover", .str co), ("cover_width", .num cw), ("cover_height", .num ch), ("account_url", encodeNullable .str au), ("privacy", .str pr), ("layout", .str la), ("views", .num vw), ("link", .str li), ("favorite", .bool fa), ("nsfw", encodeNullable .bool nw), ("section", encodeNullable .str se), ("order", .num od), ("deletehash", encodeNullable .str dh), ("images_count", .num ic), ("images", encodeNullable (fun xs => .arr (xs.map encodeImage)) imgs), ("in_gallery", .bool ig)] : List (String × Json)).map Prod.fst
      = ["id", "title", "description", "datetime", "cover", "cover_width", "cover_height", "account_url", "privacy", "layout", "views", "link", "favorite", "nsfw", "section", "order", "deletehash", "images_count", "images", "in_gallery"] := rfl
  have hl0 : lookupKey [("id", .str aid), ("title", .str ti), ("description", .str de), ("datetime", .num dt), ("cover", .str co), ("cover_width", .num cw), ("cover_height", .num ch), ("account_url", encodeNullable .str au), ("privacy", .str pr), ("layout", .str la), ("views", .num vw), ("link", .str li), ("favorite", .bool fa), ("nsfw", encodeNullable .bool nw), ("section", encodeNullable .str se), ("order", .num od), ("deletehash", encodeNullable .str dh), ("images_count", .num ic), ("images", encodeNullable (fun xs => .arr (xs.map encodeImage)) imgs), ("in_gallery", .bool ig)] "id" = some (.str aid) := rfl
  have h0 : reqField [("id", .str aid), ("title", .str ti), ("description", .str de), ("datetime", .num dt), ("cover", .str co), ("cover_width", .num cw), ("cover_height", .num ch), ("account_url", encodeNullable .str au), ("privacy", .str pr), ("layout", .str la), ("views", .num vw), ("link", .str li), ("favorite", .bool fa), ("nsfw", encodeNullable .bool nw), ("section", encodeNullable .str se), ("order", .num od), ("deletehash", encodeNullable .str dh), ("images_count", .num ic), ("images", encodeNullable (fun xs => .arr (xs.map encodeImage)) imgs), ("in_gallery", .bool ig)] "id" decodeString = some (aid : _) := by
    rw [reqField_eq _ _ _ _ (by rw [countKey_eq_count, hmap]; rfl) hl0]
    rfl
  have hl1 : lookupKey [("id", .str aid), ("title", .str ti), ("description", .str de), ("datetime", .num dt), ("cover", .str co), ("cover_width", .num cw), ("cover_height", .num ch), ("account_url", encodeNullable .str au), ("privacy", .str pr), ("layout", .str la), ("views", .num vw), ("link", .str li), ("favorite", .bool fa), ("nsfw", encodeNullable .bool nw), ("section", encodeNullable .str se), ("order", .num od), ("deletehash", encodeNullable .str dh), ("images_count", .num ic), ("images", encodeNullable (fun xs => .arr (xs.map encodeImage)) imgs), ("in_gallery", .bool ig)] "title" = some (.str ti) := rfl
  have h1 : reqField [("id", .str aid), ("title", .str ti), ("description", .str de), ("datetime", .num dt), ("cover", .str co), ("cover_width", .num cw), ("cover_height", .num ch), ("account_url", encodeNullable .str au), ("privacy", .str pr), ("layout", .str la), ("views", .num vw), ("link", .str li), ("favorite", .bool fa), ("nsfw", encodeNullable .bool nw), ("section", encodeNullable .str se), ("order", .num od), ("deletehash", encodeNullable .str dh), ("images_count", .num ic), ("images", encodeNullable (fun xs => .arr (xs.map encodeImage)) imgs), ("in_gallery", .bool ig)] "title" decodeString = some (ti : _) := by
    rw [reqField_eq _ _ _ _ (by rw [countKey_eq_count, hmap]; rfl) hl1]
    rfl
  have hl2 : lookupKey [("id", .str aid), ("title", .str ti), ("description", .str de), ("datetime", .num dt), ("cover", .str co), ("cover_width", .num cw), ("cover_height", .num ch), ("account_url", encodeNullable .str au), ("privacy", .str pr), ("layout", .str la), ("views", .num vw), ("link", .str li), ("favorite", .bool fa), ("nsfw", encodeNullable .bool nw), ("section", encodeNullable .str se), ("order", .num od), ("deletehash", encodeNullable .str dh), ("images_count", .num ic), ("images", encodeNullable (fun xs => .arr (xs.map encodeImage)) imgs), ("in_gallery", .bool ig)] "description" = some (.str de) := rfl
  have h2 : reqField [("id", .str aid), ("title", .str ti), ("description", .str de), ("datetime", .num dt), ("cover", .str co), ("cover_width", .num cw), ("cover_height", .num ch), ("account_url", encodeNullable .str au), ("privacy", .str pr), ("layout", .str la), ("views", .num vw), ("link", .str li), ("favorite", .bool fa), ("nsfw", encodeNullable .bool nw), ("section", encodeNullable .str se), ("order", .num od), ("deletehash", encodeNullable .str dh), ("images_count", .num ic), ("images", encodeNullable (fun xs => .arr (xs.map encodeImage)) imgs), ("in_gallery", .bool ig)] "description" decodeString = some (de : _) := by
    rw [reqField_eq _ _ _ _ (by rw [countKey_eq_count, hmap]; rfl) hl2]
    rfl
  have hl3 : lookupKey [("id", .str aid), ("title", .str ti), ("description", .str de), ("datetime", .num dt), ("cover", .str co), ("cover_width", .num cw), ("cover_height", .num ch), ("account_url", encodeNullable .str au), ("privacy", .str pr), ("layout", .str la), ("views", .num vw), ("link", .str li), ("favorite", .bool fa), ("nsfw", encodeNullable .bool nw), ("section", encodeNullable .str se), ("order", .num od), ("deletehash", encodeNullable .str dh), ("images_count", .num ic), ("images", encodeNullable (fun xs => .arr (xs.map encodeImage)) imgs), ("in_gallery", .bool ig)] "datetime" = some (.num dt) := rfl
  have h3 : reqField [("id", .str aid), ("title", .str ti), ("description", .str de), ("datetime", .num dt), ("cover", .str co), ("cover_width", .num cw), ("cover_height", .num ch), ("account_url", encodeNullable .str au), ("privacy", .str pr), ("layout", .str la), ("views", .num vw), ("link", .str li), ("favorite", .bool fa), ("nsfw", encodeNullable .bool nw), ("section", encodeNullable .str se), ("order", .num od), ("deletehash", encodeNullable .str dh), ("images_count", .num ic), ("images", encodeNullable (fun xs => .arr (xs.map encodeImage)) imgs), ("in_gallery", .bool ig)] "datetime" decodeU32 = some (dt : _) := by
    rw [reqField_eq _ _ _ _ (by rw [countKey_eq_count, hmap]; rfl) hl3]
    rw [decodeU32_num, if_pos hdt]
  have hl4 : lookupKey [("id", .str aid), ("title", .str ti), ("description", .str de), ("datetime", .num dt), ("cover", .str co), ("cover_width", .num cw), ("cover_height", .num ch), ("account_url", encodeNullable .str au), ("privacy", .str pr), ("layout", .str la), ("views", .num vw), ("link", .str li), ("favorite", .bool fa), ("nsfw", encodeNullable .bool nw), ("section", encodeNullable .str se), ("order", .num od), ("deletehash", encodeNullable .str dh), ("images_count", .num ic), ("images", encodeNullable (fun xs => .arr (xs.map encodeImage)) imgs), ("in_gallery", .bool ig)] "cover" = some (.str co) := rfl
  have h4 : reqField [("id", .str aid), ("title", .str ti), ("description", .str de), ("datetime", .num dt), ("cover", .str co), ("cover_width", .num cw), ("cover_height", .num ch), ("account_url", encodeNullable .str au), ("privacy", .str pr), ("layout", .str la), ("views", .num vw), ("link", .str li), ("favorite", .bool fa), ("nsfw", encodeNullable .bool nw), ("section", encodeNullable .str se), ("order", .num od), ("deletehash", encodeNullable .str dh), ("images_count", .num ic), ("images", encodeNullable (fun xs => .arr (xs.map encodeImage)) imgs), ("in_gallery", .bool ig)] "cover" decodeString = some (co : _) := by
    rw [reqField_eq _ _ _ _ (by rw [countKey_eq_count, hmap]; rfl) hl4]
    rfl
  have hl5 : lookupKey [("id", .str aid), ("title", .str ti), ("description", .str de), ("datetime", .num dt), ("cover", .str co), ("cover_width", .num cw), ("cover_height", .num ch), ("account_url", encodeNullable .str au), ("privacy", .str pr), ("layout", .str la), ("views", .num vw), ("link", .str li), ("favorite", .bool fa), ("nsfw", encodeNullable .bool nw), ("section", encodeNullable .str se), ("order", .num od), ("deletehash", encodeNullable .str dh), ("images_count", .num ic), ("images", encodeNullable (fun xs => .arr (xs.map encodeImage)) imgs), ("in_gallery", .bool ig)] "cover_width" = some (.num cw) := rfl
  have h5 : reqField [("id", .str aid), ("title", .str ti), ("description", .str de), ("datetime", .num dt), ("cover", .str co), ("cover_width", .num cw), ("cover_height", .num ch), ("account_url", encodeNullable .str au), ("privacy", .str pr), ("layout", .str la), ("views", .num vw), ("link", .str li), ("favorite", .bool fa), ("nsfw", encodeNullable .bool nw), ("section", encodeNullable .str se), ("order", .num od), ("deletehash", encodeNullable .str dh), ("images_count", .num ic), ("images", encodeNullable (fun xs => .arr (xs.map encodeImage)) imgs), ("in_gallery", .bool ig)] "cover_width" decodeU32 = some (cw : _) := by
    rw [reqField_eq _ _ _ _ (by rw [countKey_eq_count, hmap]; rfl) hl5]
    rw [decodeU32_num, if_pos hcw]
  have hl6 : lookupKey [("id", .str aid), ("title", .str ti), ("description", .str de), ("datetime", .num dt), ("cover", .str co), ("cover_width", .num cw), ("cover_height", .num ch), ("account_url", encodeNullable .str au), ("privacy", .str pr), ("layout", .str la), ("views", .num vw), ("link", .str li), ("favorite", .bool fa), ("nsfw", encodeNullable .bool nw), ("section", encodeNullable .str se), ("order", .num od), ("deletehash", encodeNullable .str dh), ("images_count", .num ic), ("images", encodeNullable (fun xs => .arr (xs.map encodeImage)) imgs), ("in_gallery", .bool ig)] "cover_height" = some (.num ch) := rfl
  have h6 : reqField [("id", .str aid), ("title", .str ti), ("description", .str de), ("datetime", .num dt), ("cover", .str co), ("cover_width", .num cw), ("cover_height", .num ch), ("account_url", encodeNullable .str au), ("privacy", .str pr), ("layout", .str la), ("views", .num vw), ("link", .str li), ("favorite", .bool fa), ("nsfw", encodeNullable .bool nw), ("section", encodeNullable .str se), ("order", .num od), ("deletehash", encodeNullable .str dh), ("images_count", .num ic), ("images", encodeNullable (fun xs => .arr (xs.map encodeImage)) imgs), ("in_gallery", .bool ig)] "cover_height" decodeU32 = some (ch : _) := by
    rw [reqField_eq _ _ _ _ (by rw [countKey_eq_count, hmap]; rfl) hl6]
    rw [decodeU32_num, if_pos hch]
  have hl7 : lookupKey [("id", .str aid), ("title", .str ti), ("description", .str de), ("datetime", .num dt), ("cover", .str co), ("cover_width", .num cw), ("cover_height", .num ch), ("account_url", encodeNullable .str au), ("privacy", .str pr), ("layout", .str la), ("views", .num vw), ("link", .str li), ("favorite", .bool fa), ("nsfw", encodeNullable .bool nw), ("section", encodeNullable .str se), ("order", .num od), ("deletehash", encodeNullable .str dh), ("images_count", .num ic), ("images", encodeNullable (fun xs => .arr (xs.map encodeImage)) imgs), ("in_gallery", .bool ig)] "account_url" = some (encodeNullable .str au) := rfl
  have h7 : optField [("id", .str aid), ("title", .str ti), ("description", .str de), ("datetime", .num dt), ("cover", .str co), ("cover_width", .num cw), ("cover_height", .num ch), ("account_url", encodeNullable .str au), ("privacy", .str pr), ("layout", .str la), ("views", .num vw), ("link", .str li), ("favorite", .bool fa), ("nsfw", encodeNullable .bool nw), ("section", encodeNullable .str se), ("order", .num od), ("deletehash", encodeNullable .str dh), ("images_count", .num ic), ("images", encodeNullable (fun xs => .arr (xs.map encodeImage)) imgs), ("in_gallery", .bool ig)] "account_url" decodeString = some au := by
    rw [optField_present _ _ _ _ (by rw [countKey_eq_count, hmap]; rfl) hl7]
    exact decodeNullable_encode_str au
  have hl8 : lookupKey [("id", .str aid), ("title", .str ti), ("description", .str de), ("datetime", .num dt), ("cover", .str co), ("cover_width", .num cw), ("cover_height", .num ch), ("account_url", encodeNullable .str au), ("privacy", .str pr), ("layout", .str la), ("views", .num vw), ("link", .str li), ("favorite", .bool fa), ("nsfw", encodeNullable .bool nw), ("section", encodeNullable .str se), ("order", .num od), ("deletehash", encodeNullable .str dh), ("images_count", .num ic), ("images", encodeNullable (fun xs => .arr (xs.map encodeImage)) imgs), ("in_gallery", .bool ig)] "privacy" = some (.str pr) := rfl
  have h8 : reqField [("id", .str aid), ("title", .str ti), ("description", .str de), ("datetime", .num dt), ("cover", .str co), ("cover_width", .num cw), ("cover_height", .num ch), ("account_url", encodeNullable .str au), ("privacy", .str pr), ("layout", .str la), ("views", .num vw), ("link", .str li), ("favorite", .bool fa), ("nsfw", encodeNullable .bool nw), ("section", encodeNullable .str se), ("order", .num od), ("deletehash", encodeNullable .str dh), ("images_count", .num ic), ("images", encodeNullable (fun xs => .arr (xs.map encodeImage)) imgs), ("in_gallery", .bool ig)] "privacy" decodeString = some (pr : _) := by
    rw [reqField_eq _ _ _ _ (by rw [countKey_eq_count, hmap]; rfl) hl8]
    rfl
  have hl9 : lookupKey [("id", .str aid), ("title", .str ti), ("description", .str de), ("datetime", .num dt), ("cover", .str co), ("cover_width", .num cw), ("cover_height", .num ch), ("account_url", encodeNullable .str au), ("privacy", .str pr), ("layout", .str la), ("views", .num vw), ("link", .str li), ("favorite", .bool fa), ("nsfw", encodeNullable .bool nw), ("section", encodeNullable .str se), ("order", .num od), ("deletehash", encodeNullable .str dh), ("images_count", .num ic), ("images", encodeNullable (fun xs => .arr (xs.map encodeImage)) imgs), ("in_gallery", .bool ig)] "layout" = some (.str la) := rfl
  have h9 : reqField [("id", .str aid), ("title", .str ti), ("description", .str de), ("datetime", .num dt), ("cover", .str co), ("cover_width", .num cw), ("cover_height", .num ch), ("account_url", encodeNullable .str au), ("privacy", .str pr), ("layout", .str la), ("views", .num vw), ("link", .str li), ("favorite", .bool fa), ("nsfw", encodeNullable .bool nw), ("section", encodeNullable .str se), ("order", .num od), ("deletehash", encodeNullable .str dh), ("images_count", .num ic), ("images", encodeNullable (fun xs => .arr (xs.map encodeImage)) imgs), ("in_gallery", .bool ig)] "layout" decodeString = some (la : _) := by
    rw [reqField_eq _ _ _ _ (by rw [countKey_eq_count, hmap]; rfl) hl9]
    rfl
  have hl10 : lookupKey [("id", .str aid), ("title", .str ti), ("description", .str de), ("datetime", .num dt), ("cover", .str co), ("cover_width", .num cw), ("cover_height", .num ch), ("account_url", encodeNullable .str au), ("privacy", .str pr), ("layout", .str la), ("views", .num vw), ("link", .str li), ("favorite", .bool fa), ("nsfw", encodeNullable .bool nw), ("section", encodeNullable .str se), ("order", .num od), ("deletehash", encodeNullable .str dh), ("images_count", .num ic), ("images", encodeNullable (fun xs => .arr (xs.map encodeImage)) imgs), ("in_gallery", .bool ig)] "views" = some (.num vw) := rfl
  have h10 : reqField [("id", .str aid), ("title", .str ti), ("description", .str de), ("datetime", .num dt), ("cover", .str co), ("cover_width", .num cw), ("cover_height", .num ch), ("account_url", encodeNullable .str au), ("privacy", .str pr), ("layout", .str la), ("views", .num vw), ("link", .str li), ("favorite", .bool fa), ("nsfw", encodeNullable .bool nw), ("section", encodeNullable .str se), ("order", .num od), ("deletehash", encodeNullable .str dh), ("images_count", .num ic), ("images", encodeNullable (fun xs => .arr (xs.map encodeImage)) imgs), ("in_gallery", .bool ig)] "views" decodeU32 = some (vw : _) := by
    rw [reqField_eq _ _ _ _ (by rw [countKey_eq_count, hmap]; rfl) hl10]
    rw [decodeU32_num, if_pos hvw]
  have hl11 : lookupKey [("id", .str aid), ("title", .str ti), ("description", .str de), ("datetime", .num dt), ("cover", .str co), ("cover_width", .num cw), ("cover_height", .num ch), ("account_url", encodeNullable .str au), ("privacy", .str pr), ("layout", .str la), ("views", .num vw), ("link", .str li), ("favorite", .bool fa), ("nsfw", encodeNullable .bool nw), ("section", encodeNullable .str se), ("order", .num od), ("deletehash", encodeNullable .str dh), ("images_count", .num ic), ("images", encodeNullable (fun xs => .arr (xs.map encodeImage)) imgs), ("in_gallery", .bool ig)] "link" = some (.str li) := rfl
  have h11 : reqField [("id", .str aid), ("title", .str ti), ("description", .str de), ("datetime", .num dt), ("cover", .str co), ("cover_width", .num cw), ("cover_height", .num ch), ("account_url", encodeNullable .str au), ("privacy", .str pr), ("layout", .str la), ("views", .num vw), ("link", .str li), ("favorite", .bool fa), ("nsfw", encodeNullable .bool nw), ("section", encodeNullable .str se), ("order", .num od), ("deletehash", encodeNullable .str dh), ("images_count", .num ic), ("images", encodeNullable (fun xs => .arr (xs.map encodeImage)) imgs), ("in_gallery", .bool ig)] "link" decodeString = some (li : _) := by
    rw [reqField_eq _ _ _ _ (by rw [countKey_eq_count, hmap]; rfl) hl11]
    rfl
  have hl12 : lookupKey [("id", .str aid), ("title", .str ti), ("description", .str de), ("datetime", .num dt), ("cover", .str co), ("cover_width", .num cw), ("cover_height", .num ch), ("account_url", encodeNullable .str au), ("privacy", .str pr), ("layout", .str la), ("views", .num vw), ("link", .str li), ("favorite", .bool fa), ("nsfw", encodeNullable .bool nw), ("section", encodeNullable .str se), ("order", .num od), ("deletehash", encodeNullable .str dh), ("images_count", .num ic), ("images", encodeNullable (fun xs => .arr (xs.map encodeImage)) imgs), ("in_gallery", .bool ig)] "favorite" = some (.bool fa) := rfl
  have h12 : reqField [("id", .str aid), ("title", .str ti), ("description", .str de), ("datetime", .num dt), ("cover", .str co), ("cover_width", .num cw), ("cover_height", .num ch), ("account_url", encodeNullable .str au), ("privacy", .str pr), ("layout", .str la), ("views", .num vw), ("link", .str li), ("favorite", .bool fa), ("nsfw", encodeNullable .bool nw), ("section", encodeNullable .str se), ("order", .num od), ("deletehash", encodeNullable .str dh), ("images_count", .num ic), ("images", encodeNullable (fun xs => .arr (xs.map encodeImage)) imgs), ("in_gallery", .bool ig)] "favorite" decodeBool = some (fa : _) := by
    rw [reqField_eq _ _ _ _ (by rw [countKey_eq_count, hmap]; rfl) hl12]
    rfl
  have hl13 : lookupKey [("id", .str aid), ("title", .str ti), ("description", .str de), ("datetime", .num dt), ("cover", .str co), ("cover_width", .num cw), ("cover_height", .num ch), ("account_url", encodeNullable .str au), ("privacy", .str pr), ("layout", .str la), ("views", .num vw), ("link", .str li), ("favorite", .bool fa), ("nsfw", encodeNullable .bool nw), ("section", encodeNullable .str se), ("order", .num od), ("deletehash", encodeNullable .str dh), ("images_count", .num ic), ("images", encodeNullable (fun xs => .arr (xs.map encodeImage)) imgs), ("in_gallery", .bool ig)] "nsfw" = some (encodeNullable .bool nw) := rfl
  have h13 : optField [("id", .str aid), ("title", .str ti), ("description", .str de), ("datetime", .num dt), ("cover", .str co), ("cover_width", .num cw), ("cover_height", .num ch), ("account_url", encodeNullable .str au), ("privacy", .str pr), ("layout", .str la), ("views", .num vw), ("link", .str li), ("favorite", .bool fa), ("nsfw", encodeNullable .bool nw), ("section", encodeNullable .str se), ("order", .num od), ("deletehash", encodeNullable .str dh), ("images_count", .num ic), ("images", encodeNullable (fun xs => .arr (xs.map encodeImage)) imgs), ("in_gallery", .bool ig)] "nsfw" decodeBool = some nw := by
    rw [optField_present _ _ _ _ (by rw [countKey_eq_count, hmap]; rfl) hl13]
    exact decodeNullable_encode_bool nw
  have hl14 : lookupKey [("id", .str aid), ("title", .str ti), ("description", .str de), ("datetime", .num dt), ("cover", .str co), ("cover_width", .num cw), ("cover_height", .num ch), ("account_url", encodeNullable .str au), ("privacy", .str pr), ("layout", .str la), ("views", .num vw), ("link", .str li), ("favorite", .bool fa), ("nsfw", encodeNullable .bool nw), ("section", encodeNullable .str se), ("order", .num od), ("deletehash", encodeNullable .str dh), ("images_count", .num ic), ("images", encodeNullable (fun xs => .arr (xs.map encodeImage)) imgs), ("in_gallery", .bool ig)] "section" = some (encodeNullable .str se) := rfl
  have h14 : optField [("id", .str aid), ("title", .str ti), ("description", .str de), ("datetime", .num dt), ("cover", .str co), ("cover_width", .num cw), ("cover_height", .num ch), ("account_url", encodeNullable .str au), ("privacy", .str pr), ("layout", .str la), ("views", .num vw), ("link", .str li), ("favorite", .bool fa), ("nsfw", encodeNullable .bool nw), ("section", encodeNullable .str se), ("order", .num od), ("deletehash", encodeNullable .str dh), ("images_count", .num ic), ("images", encodeNullable (fun xs => .arr (xs.map encodeImage)) imgs), ("in_gallery", .bool ig)] "section" decodeString = some se := by
    rw [optField_present _ _ _ _ (by rw [countKey_eq_count, hmap]; rfl) hl14]
    exact decodeNullable_encode_str se
  have hl15 : lookupKey [("id", .str aid), ("title", .str ti), ("description", .str de), ("datetime", .num dt), ("cover", .str co), ("cover_width", .num cw), ("cover_height", .num ch), ("account_url", encodeNullable .str au), ("privacy", .str pr), ("layout", .str la), ("views", .num vw), ("link", .str li), ("favorite", .bool fa), ("nsfw", encodeNullable .bool nw), ("section", encodeNullable .str se), ("order", .num od), ("deletehash", encodeNullable .str dh), ("images_count", .num ic), ("images", encodeNullable (fun xs => .arr (xs.map encodeImage)) imgs), ("in_gallery", .bool ig)] "order" = some (.num od) := rfl
  have h15 : reqField [("id", .str aid), ("title", .str ti), ("description", .str de), ("datetime", .num dt), ("cover", .str co), ("cover_width", .num cw), ("cover_height", .num ch), ("account_url", encodeNullable .str au), ("privacy", .str pr), ("layout", .str la), ("views", .num vw), ("link", .str li), ("favorite", .bool fa), ("nsfw", encodeNullable .bool nw), ("section", encodeNullable .str se), ("order", .num od), ("deletehash", encodeNullable .str dh), ("images_count", .num ic), ("images", encodeNullable (fun xs => .arr (xs.map encodeImage)) imgs), ("in_gallery", .bool ig)] "order" decodeU32 = some (od : _) := by
    rw [reqField_eq _ _ _ _ (by rw [countKey_eq_count, hmap]; rfl) hl15]
    rw [decodeU32_num, if_pos hod]
  have hl16 : lookupKey [("id", .str aid), ("title", .str ti), ("description", .str de), ("datetime", .num dt), ("cover", .str co), ("cover_width", .num cw), ("cover_height", .num ch), ("account_url", encodeNullable .str au), ("privacy", .str pr), ("layout", .str la), ("views", .num vw), ("link", .str li), ("favorite", .bool fa), ("nsfw", encodeNullable .bool nw), ("section", encodeNullable .str se), ("order", .num od), ("deletehash", encodeNullable .str dh), ("images_count", .num ic), ("images", encodeNullable (fun xs => .arr (xs.map encodeImage)) imgs), ("in_gallery", .bool ig)] "deletehash" = some (encodeNullable .str dh) := rfl
  have h16 : optField [("id", .str aid), ("title", .str ti), ("description", .str de), ("datetime", .num dt), ("cover", .str co), ("cover_width", .num cw), ("cover_height", .num ch), ("account_url", encodeNullable .str au), ("privacy", .str pr), ("layout", .str la), ("views", .num vw), ("link", .str li), ("favorite", .bool fa), ("nsfw", encodeNullable .bool nw), ("section", encodeNullable .str se), ("order", .num od), ("deletehash", encodeNullable .str dh), ("images_count", .num ic), ("images", encodeNullable (fun xs => .arr (xs.map encodeImage)) imgs), ("in_gallery", .bool ig)] "deletehash" decodeString = some dh := by
    rw [optField_present _ _ _ _ (by rw [countKey_eq_count, hmap]; rfl) hl16]
    exact decodeNullable_encode_str dh
  have hl17 : lookupKey [("id", .str aid), ("title", .str ti), ("description", .str de), ("datetime", .num dt), ("cover", .str co), ("cover_width", .num cw), ("cover_height", .num ch), ("account_url", encodeNullable .str au), ("privacy", .str pr), ("layout", .str la), ("views", .num vw), ("link", .str li), ("favorite", .bool fa), ("nsfw", encodeNullable .bool nw), ("section", encodeNullable .str se), ("order", .num od), ("deletehash", encodeNullable .str dh), ("images_count", .num ic), ("images", encodeNullable (fun xs => .arr (xs.map encodeImage)) imgs), ("in_gallery", .bool ig)] "images_count" = some (.num ic) := rfl
  have h17 : reqField [("id", .str aid), ("title", .str ti), ("description", .str de), ("datetime", .num dt), ("cover", .str co), ("cover_width", .num cw), ("cover_height", .num ch), ("account_url", encodeNullable .str au), ("privacy", .str pr), ("layout", .str la), ("views", .num vw), ("link", .str li), ("favorite", .bool fa), ("nsfw", encodeNullable .bool nw), ("section", encodeNullable .str se), ("order", .num od), ("deletehash", encodeNullable .str dh), ("images_count", .num ic), ("images", encodeNullable (fun xs => .arr (xs.map encodeImage)) imgs), ("in_gallery", .bool ig)] "images_count" decodeU32 = some (ic : _) := by
    rw [reqField_eq _ _ _ _ (by rw [countKey_eq_count, hmap]; rfl) hl17]
    rw [decodeU32_num, if_pos hic]
  have hl18 : lookupKey [("id", .str aid), ("title", .str ti), ("description", .str de), ("datetime", .num dt), ("cover", .str co), ("cover_width", .num cw), ("cover_height", .num ch), ("account_url", encodeNullable .str au), ("privacy", .str pr), ("layout", .str la), ("views", .num vw), ("link", .str li), ("favorite", .bool fa), ("nsfw", encodeNullable .bool nw), ("section", encodeNullable .str se), ("order", .num od), ("deletehash", encodeNullable .str dh), ("images_count", .num ic), ("images", encodeNullable (fun xs => .arr (xs.map encodeImage)) imgs), ("in_gallery", .bool ig)] "images" = some (encodeNullable (fun xs => .arr (xs.map encodeImage)) imgs) := rfl
  have h18 : optField [("id", .str aid), ("title", .str ti), ("description", .str de), ("datetime", .num dt), ("cover", .str co), ("cover_width", .num cw), ("cover_height", .num ch), ("account_url", encodeNullable .str au), ("privacy", .str pr), ("layout", .str la), ("views", .num vw), ("link", .str li), ("favorite", .bool fa), ("nsfw", encodeNullable .bool nw), ("section", encodeNullable .str se), ("order", .num od), ("deletehash", encodeNullable .str dh), ("images_count", .num ic), ("images", encodeNullable (fun xs => .arr (xs.map encodeImage)) imgs), ("in_gallery", .bool ig)] "images" (decodeList decodeImage) = some imgs := by
    rw [optField_present _ _ _ _ (by rw [countKey_eq_count, hmap]; rfl) hl18]
    exact himgs
  have hl19 : lookupKey [("id", .str aid), ("title", .str ti), ("description", .str de), ("datetime", .num dt), ("cover", .str co), ("cover_width", .num cw), ("cover_height", .num ch), ("account_url", encodeNullable .str au), ("privacy", .str pr), ("layout", .str la), ("views", .num vw), ("link", .str li), ("favorite", .bool fa), ("nsfw", encodeNullable .bool nw), ("section", encodeNullable .str se), ("order", .num od), ("deletehash", encodeNullable .str dh), ("images_count", .num ic), ("images", encodeNullable (fun xs => .arr (xs.map encodeImage)) imgs), ("in_gallery", .bool ig)] "in_gallery" = some (.bool ig) := rfl
  have h19 : reqField [("id", .str aid), ("title", .str ti), ("description", .str de), ("datetime", .num dt), ("cover", .str co), ("cover_width", .num cw), ("cover_height", .num ch), ("account_url", encodeNullable .str au), ("privacy", .str pr), ("layout", .str la), ("views", .num vw), ("link", .str li), ("favorite", .bool fa), ("nsfw", encodeNullable .bool nw), ("section", encodeNullable .str se), ("order", .num od), ("deletehash", encodeNullable .str dh), ("images_count", .num ic), ("images", encodeNullable (fun xs => .arr (xs.map encodeImage)) imgs), ("in_gallery", .bool ig)] "in_gallery" decodeBool = some (ig : _) := by
    rw [reqField_eq _ _ _ _ (by rw [countKey_eq_count, hmap]; rfl) hl19]
    rfl
  simp only [decodeAlbum, h0, h1, h2, h3, h4, h5, h6, h7, h8, h9, h10, h11, h12, h13, h14, h15, h16, h17, h18, h19, obind_some]


/-- The serialized optional image list decodes back to itself when every
embedded image is well formed. -/
theorem decodeNullable_encode_imageList (o : Option (List Image))
    (h : ∀ i ∈ o.getD [], i.wf) :
    decodeNullable (decodeList decodeImage)
      (encodeNullable (fun xs => .arr (xs.map encodeImage)) o) = some o := by
  cases o with
  | none => rfl
  | some xs =>
    have hxs : decodeList decodeImage (.arr (xs.map encodeImage)) = some xs :=
      decodeList_mapM decodeImage encodeImage xs
        (fun i hi => image_roundtrip i (h i (by simpa using hi)))
    simp [decodeNullable, encodeNullable, hxs]

/-- Serializing an album with `serde` and decoding it back is the
identity (for well-formed albums). -/
theorem album_roundtrip (a : Album) (h : a.wf) :
    decodeAlbum (encodeAlbum a) = some a := by
  obtain ⟨h1, h2, h3, h4, h5, h6, h7⟩ := h
  cases a with
  | mk aid ti de dt co cw ch au pr la vw li fa nw se od dh ic imgs ig =>
    exact decodeAlbum_encode_fields aid ti de co pr la li fa ig
      dt cw ch vw od ic au se dh nw imgs h1 h2 h3 h4 h5 h6
      (decodeNullable_encode_imageList imgs h7)

/-- Serializing a success envelope and decoding it back is the identity,
given that the payload itself round-trips. -/
theorem encodeResponse_success_roundtrip (enc : α → Json)
    (dec : Json → Option α) (st : Nat) (su : Bool) (t : α)
    (hst : st < 2 ^ 64) (hd : dec (enc t) = some t) :
    decodeResponse dec
        (encodeResponse enc { status := st, success := su, data := .Success t })
      = some { status := st, success := su, data := .Success t } := by
  have hs : decodeUsize (.num st) = some st := by
    rw [decodeUsize_num, if_pos hst]
  exact decodeResponse_obj_success dec _ _ _ st su t hs rfl hd

/-! Claim theorems. -/

/-- C1: for every well-formed envelope body `{status, success, data}`
whose `data` decodes as the expected payload shape `T`, decoding yields
the success variant of the data union — whatever the `status` and
`success` values are — and `into_result()` returns that payload
unchanged. -/
theorem envelope_success_structural (dec : Json → Option α)
    (sj bj dj : Json) (st : Nat) (su : Bool) (t : α)
    (hs : decodeUsize sj = some st) (hb : decodeBool bj = some su)
    (hd : dec dj = some t) :
    decodeResponse dec (.obj [("status", sj), ("success", bj), ("data", dj)])
      = some { status := st, success := su, data := .Success t } ∧
    (ResponseData.Success t).into_result = .ok t :=
  ⟨decodeResponse_obj_success dec sj bj dj st su t hs hb hd, rfl⟩

/-- Witness for C1: a body with `status = 400` and `success = false`
whose `data` is a full image object still decodes to the success
variant. -/
theorem envelope_success_structural_witness :
    decodeResponse decodeImage
        (.obj [("status", .num 400), ("success", .bool false),
               ("data", imageJsonExample)])
      = some { status := 400, success := false, data := .Success imageExample } ∧
    (ResponseData.Success imageExample).into_result = .ok imageExample :=
  envelope_success_structural decodeImage (.num 400) (.bool false)
    imageJsonExample 400 false imageExample rfl rfl rfl

/-- C2: for every body whose `data` is an `ApiError`-shaped object that
does not decode as the payload shape, decoding yields the error variant
— whatever `status` and `success` say — and `into_result()` is the
`Imgur` (API) error kind carrying the very same `error`, `request` and
`method` strings. -/
theorem envelope_error_structural (dec : Json → Option α)
    (sj bj : Json) (st : Nat) (su : Bool) (er rq me : String)
    (hs : decodeUsize sj = some st) (hb : decodeBool bj = some su)
    (hd : dec (.obj [("error", .str er), ("request", .str rq),
                     ("method", .str me)]) = none) :
    decodeResponse dec
        (.obj [("status", sj), ("success", bj),
               ("data", .obj [("error", .str er), ("request", .str rq),
                              ("method", .str me)])])
      = some { status := st, success := su,
               data := .Error { error := er, request := rq, method := me } } ∧
    (ResponseData.Error (α := α)
        { error := er, request := rq, method := me }).into_result
      = .error (.Imgur { error := er, request := rq, method := me }) := by
  refine ⟨?_, rfl⟩
  simp [decodeResponse, reqField, countKey, lookupKey, decodeResponseData,
        decodeApiError, decodeString, hs, hb, hd]

/-- Witness for C2: the spec's scenario 3 body (`status = 400`,
`success = false`, album-not-found error data) decodes to the error
variant when an image payload is expected. -/
theorem envelope_error_structural_witness :
    decodeResponse decodeImage
        (.obj [("status", .num 400), ("success", .bool false),
               ("data", .obj [("error", .str "Album not found"),
                              ("request", .str "/3/album/cXz/images"),
                              ("method", .str "GET")])])
      = some { status := 400, success := false, data := .Error apiErrorExample } ∧
    (ResponseData.Error (α := Image) apiErrorExample).into_result
      = .error (.Imgur apiErrorExample) :=
  envelope_error_structural decodeImage (.num 400) (.bool false) 400 false
    "Album not found" "/3/album/cXz/images" "GET" rfl rfl rfl

/-- C3: resolving the `data` union is an ordered structural attempt —
the payload shape is tried first and wins whenever it matches, the
`ApiError` shape is the fallback, and when both fail the whole envelope
fails to decode; at the pipeline, malformed bytes give the `Serde`
(decode) error and an `ok` is only ever produced by an actual
successful parse and decode, never by a default. -/
theorem data_union_ordered_attempt (dec : Json → Option α) (j : Json) :
    (∀ t, dec j = some t → decodeResponseData dec j = some (.Success t)) ∧
    (∀ e, dec j = none → decodeApiError j = some e →
        decodeResponseData dec j = some (.Error e)) ∧
    (dec j = none → decodeApiError j = none →
        decodeResponseData dec j = none) ∧
    (∀ sj bj, dec j = none → decodeApiError j = none →
        decodeResponse dec
          (.obj [("status", sj), ("success", bj), ("data", j)]) = none) ∧
    (∀ bytes, parseJson bytes = none →
        from_slice (decodeResponse dec) bytes = .error .Serde) ∧
    (∀ bytes v, from_slice dec bytes = .ok v →
        ∃ j2, parseJson bytes = some j2 ∧ dec j2 = some v) := by
  refine ⟨?_, ?_, ?_, ?_, ?_, ?_⟩
  · intro t ht
    simp [decodeResponseData, ht]
  · intro e h1 h2
    simp [decodeResponseData, h1, h2]
  · intro h1 h2
    simp [decodeResponseData, h1, h2]
  · intro sj bj h1 h2
    cases hsv : decodeUsize sj <;> cases hbv : decodeBool bj <;>
      simp [decodeResponse, reqField, countKey, lookupKey,
            decodeResponseData, h1, h2, hsv, hbv]
  · intro bytes hp
    simp [from_slice, hp]
  · intro bytes v hv
    unfold from_slice at hv
    cases hp : parseJson bytes with
    | none => rw [hp] at hv; simp at hv
    | some j2 =>
      rw [hp] at hv
      simp only [] at hv
      refine ⟨j2, rfl, ?_⟩
      cases hdv : dec j2 with
      | none => rw [hdv] at hv; simp at hv
      | some w =>
        rw [hdv] at hv
        simp at hv
        subst hv
        rfl

/-- Witness for C3: the ordered attempt at concrete inputs, a concrete
truncated body failing with the decode error, and a concrete successful
parse backing an `ok`. -/
theorem data_union_ordered_attempt_witness :
    decodeResponseData decodeApiError apiErrorJsonExample
      = some (.Success apiErrorExample) ∧
    decodeResponseData decodeImage apiErrorJsonExample
      = some (.Error apiErrorExample) ∧
    decodeResponseData decodeImage .null = none ∧
    decodeResponse decodeImage
        (.obj [("status", .num 200), ("success", .bool true),
               ("data", .null)]) = none ∧
    from_slice (decodeResponse decodeBool) "\x7b\"status\": tru"
      = .error .Serde ∧
    ∃ j2, parseJson "true" = some j2 ∧ decodeBool j2 = some true :=
  ⟨(data_union_ordered_attempt decodeApiError apiErrorJsonExample).1
      apiErrorExample rfl,
   (data_union_ordered_attempt decodeImage apiErrorJsonExample).2.1
      apiErrorExample rfl rfl,
   (data_union_ordered_attempt decodeImage .null).2.2.1 rfl rfl,
   (data_union_ordered_attempt decodeImage .null).2.2.2.1
      (.num 200) (.bool true) rfl rfl,
   (data_union_ordered_attempt decodeBool .null).2.2.2.2.1
      "\x7b\"status\": tru" rfl,
   (data_union_ordered_attempt decodeBool .null).2.2.2.2.2
      "true" true rfl⟩

/-- C5: when the transport layer fails — the GET request itself or the
body read — the pipeline returns the transport (`Hyper`) error for
every payload decoder, so no decode is ever attempted: the outcome does
not depend on the decoder at all. -/
theorem transport_failure_no_decode (dec : Json → Option α) :
    get_with_header dec .requestError = .error .Hyper ∧
    get_with_header dec .bodyError = .error .Hyper :=
  ⟨rfl, rfl⟩

/-- C9: an empty `data` array for the album-images route decodes to the
success variant carrying the empty sequence, and `into_result()`
returns it — zero images is a success, not an error. -/
theorem album_images_empty_array_success (sj bj : Json) (st : Nat) (su : Bool)
    (hs : decodeUsize sj = some st) (hb : decodeBool bj = some su) :
    decodeResponse (decodeList decodeImage)
        (.obj [("status", sj), ("success", bj), ("data", .arr [])])
      = some { status := st, success := su, data := .Success [] } ∧
    (ResponseData.Success ([] : List Image)).into_result = .ok [] := by
  refine ⟨?_, rfl⟩
  simp [decodeResponse, reqField, countKey, lookupKey, decodeResponseData,
        hs, hb]

/-- Witness for C9: the concrete empty-album body. -/
theorem album_images_empty_array_success_witness :
    decodeResponse (decodeList decodeImage)
        (.obj [("status", .num 200), ("success", .bool true),
               ("data", .arr [])])
      = some { status := 200, success := true, data := .Success [] } ∧
    (ResponseData.Success ([] : List Image)).into_result = .ok [] :=
  album_images_empty_array_success (.num 200) (.bool true) 200 true rfl rfl

/-- C10: the envelope's `status` and `success` fields are mandatory and
typed — a body missing either field, or whose `status` is not a
non-negative (64-bit) integer, or whose `success` is not a boolean,
fails to decode even when `data` matches the payload shape; and the
`status`/`success` decoders accept nothing but such values. -/
theorem envelope_fields_mandatory (dec : Json → Option α) (dj : Json) (t : α)
    (hd : dec dj = some t) :
    (∀ bj, decodeResponse dec (.obj [("success", bj), ("data", dj)]) = none) ∧
    (∀ sj, decodeResponse dec (.obj [("status", sj), ("data", dj)]) = none) ∧
    (∀ sj bj, decodeUsize sj = none →
        decodeResponse dec
          (.obj [("status", sj), ("success", bj), ("data", dj)]) = none) ∧
    (∀ sj bj st, decodeUsize sj = some st → decodeBool bj = none →
        decodeResponse dec
          (.obj [("status", sj), ("success", bj), ("data", dj)]) = none) ∧
    (∀ sj st, decodeUsize sj = some st →
        ∃ n : Int, sj = .num n ∧ 0 ≤ n ∧ n < 2 ^ 64 ∧ st = n.toNat) ∧
    (∀ bj b, decodeBool bj = some b → bj = .bool b) := by
  refine ⟨?_, ?_, ?_, ?_, ?_, ?_⟩
  · intro bj
    simp [decodeResponse, reqField, countKey, lookupKey]
  · intro sj
    cases hsv : decodeUsize sj <;>
      simp [decodeResponse, reqField, countKey, lookupKey, hsv]
  · intro sj bj hs
    simp [decodeResponse, reqField, countKey, lookupKey, hs]
  · intro sj bj st hs hb
    simp [decodeResponse, reqField, countKey, lookupKey, hs, hb]
  · intro sj st hs
    cases sj <;> simp [decodeUsize] at hs
    rename_i n
    rcases hs with ⟨⟨h0, h64⟩, hst⟩
    exact ⟨n, rfl, h0, h64, hst.symm⟩
  · intro bj b hb
    cases bj <;> simp [decodeBool] at hb
    rw [hb]

/-- Witness for C10: concrete malformed envelopes around a decodable
`data` field. -/
theorem envelope_fields_mandatory_witness :
    decodeResponse decodeBool
        (.obj [("success", .bool true), ("data", .bool true)]) = none ∧
    decodeResponse decodeBool
        (.obj [("status", .num 200), ("data", .bool true)]) = none ∧
    decodeResponse decodeBool
        (.obj [("status", .str "200"), ("success", .bool true),
               ("data", .bool true)]) = none ∧
    decodeResponse decodeBool
        (.obj [("status", .num 200), ("success", .num 1),
               ("data", .bool true)]) = none ∧
    (∃ n : Int, Json.num 200 = .num n ∧ 0 ≤ n ∧ n < 2 ^ 64 ∧ 200 = n.toNat) ∧
    Json.bool true = .bool true :=
  ⟨(envelope_fields_mandatory decodeBool (.bool true) true rfl).1 (.bool true),
   (envelope_fields_mandatory decodeBool (.bool true) true rfl).2.1 (.num 200),
   (envelope_fields_mandatory decodeBool (.bool true) true rfl).2.2.1
      (.str "200") (.bool true) rfl,
   (envelope_fields_mandatory decodeBool (.bool true) true rfl).2.2.2.1
      (.num 200) (.num 1) 200 rfl rfl,
   (envelope_fields_mandatory decodeBool (.bool true) true rfl).2.2.2.2.1
      (.num 200) 200 rfl,
   (envelope_fields_mandatory decodeBool (.bool true) true rfl).2.2.2.2.2
      (.bool true) true rfl⟩

/-- C7: the user-visible display form of an `ApiError` is exactly
`Request {method} {request} failed: {error}` — the template's
placeholders filled with the method, request and error fields in that
order. -/
theorem api_error_display_form (e : ApiError) :
    e.display
      = "Request " ++ e.method ++ " " ++ e.request ++ " failed: " ++ e.error := by
  cases e with
  | mk er rq me =>
    show rustFormat "Request \x7b\x7d \x7b\x7d failed: \x7b\x7d" [me, rq, er] = _
    have h : (splitPlaceholders
          "Request \x7b\x7d \x7b\x7d failed: \x7b\x7d".data).map String.mk
        = ["Request ", " ", " failed: ", ""] := rfl
    rw [rustFormat, h]
    simp [interleave, String.append_assoc, String.append_empty]

/-- C6 counterexample: for the id `" "` (one space — not a valid URI
character), the `image` operation panics on the unwrapped URL parse
(the model returns `none`: the call aborts without returning a value),
so building the request URL from the id can abort the call. -/
theorem client_image_aborts_on_space_id :
    ImgurClient.image { client_id := "cid" } " " .requestError = none := rfl

/-- C6 (amended): for every resource id consisting of valid URI
characters, the three operations never abort — the URL unwrap succeeds
and every failure is reported as a returned `Error` value (here: the
transport failure). -/
theorem client_ops_no_panic_on_valid_uri_ids (c : ImgurClient) (id : String)
    (t : TransportOutcome) (h : id.data.all isUriChar = true) :
    (c.image id t).isSome ∧ (c.album id t).isSome ∧
    (c.album_images id t).isSome ∧
    c.image id .requestError = some (.error .Hyper) ∧
    c.album id .requestError = some (.error .Hyper) ∧
    c.album_images id .requestError = some (.error .Hyper) := by
  have hAPI : (API ++ "/image/").data.all isUriChar = true := rfl
  have h1 : ((API ++ "/image/") ++ id).data.all isUriChar = true := by
    rw [String.data_append, List.all_append, hAPI, h]; rfl
  have hAPI2 : (API ++ "/album/").data.all isUriChar = true := rfl
  have h2 : ((API ++ "/album/") ++ id).data.all isUriChar = true := by
    rw [String.data_append, List.all_append, hAPI2, h]; rfl
  have h3 : (((API ++ "/album/") ++ id) ++ "/images").data.all isUriChar = true := by
    rw [String.data_append, List.all_append, h2]; rfl
  have hu1 : uriParse ((API ++ "/image/") ++ id)
      = some ((API ++ "/image/") ++ id) := by
    unfold uriParse; rw [h1]; simp
  have hu2 : uriParse ((API ++ "/album/") ++ id)
      = some ((API ++ "/album/") ++ id) := by
    unfold uriParse; rw [h2]; simp
  have hu3 : uriParse (((API ++ "/album/") ++ id) ++ "/images")
      = some (((API ++ "/album/") ++ id) ++ "/images") := by
    unfold uriParse; rw [h3]; simp
  refine ⟨?_, ?_, ?_, ?_, ?_, ?_⟩ <;>
    simp only [ImgurClient.image, ImgurClient.album, ImgurClient.album_images,
               hu1, hu2, hu3, get_with_header] <;> rfl

/-- Witness for C6 (amended): the concrete id of the spec's scenario 1. -/
theorem client_ops_no_panic_on_valid_uri_ids_witness :
    (ImgurClient.image { client_id := "cid" } "PE2NI" .bodyError).isSome ∧
    (ImgurClient.album { client_id := "cid" } "PE2NI" .bodyError).isSome ∧
    (ImgurClient.album_images { client_id := "cid" } "PE2NI" .bodyError).isSome ∧
    ImgurClient.image { client_id := "cid" } "PE2NI" .requestError
      = some (.error .Hyper) ∧
    ImgurClient.album { client_id := "cid" } "PE2NI" .requestError
      = some (.error .Hyper) ∧
    ImgurClient.album_images { client_id := "cid" } "PE2NI" .requestError
      = some (.error .Hyper) :=
  client_ops_no_panic_on_valid_uri_ids { client_id := "cid" } "PE2NI"
    .bodyError rfl

/-- The album object with every field present and `images: null`
decodes with `images` resolved to `none`. -/
theorem decodeAlbum_null_images (aid ti de co pr la li : String) (fa ig : Bool)
  (dt cw ch vw od ic : Nat) (au se dh : Option String) (nw : Option Bool)
  (hdt : dt < 2 ^ 32) (hcw : cw < 2 ^ 32) (hch : ch < 2 ^ 32)
  (hvw : vw < 2 ^ 32) (hod : od < 2 ^ 32) (hic : ic < 2 ^ 32) :
  decodeAlbum
      (.obj [("id", .str aid), ("title", .str ti), ("description", .str de), ("datetime", .num dt), ("cover", .str co), ("cover_width", .num cw), ("cover_height", .num ch), ("account_url", encodeNullable .str au), ("privacy", .str pr), ("layout", .str la), ("views", .num vw), ("link", .str li), ("favorite", .bool fa), ("nsfw", encodeNullable .bool nw), ("section", encodeNullable .str se), ("order", .num od), ("deletehash", encodeNullable .str dh), ("images_count", .num ic), ("images", .null), ("in_gallery", .bool ig)])
    = some
        { id := aid, title := ti, description := de, datetime := dt,
          cover := co, cover_width := cw, cover_height := ch,
          account_url := au, privacy := pr, layout := la, views := vw,
          link := li, favorite := fa, nsfw := nw, «section» := se,
          order := od, deletehash := dh, images_count := ic,
          images := none, in_gallery := ig } := by
  have hmapa : ([("id", .str aid), ("title", .str ti), ("description", .str de), ("datetime", .num dt), ("cover", .str co), ("cover_width", .num cw), ("cover_height", .num ch), ("account_url", encodeNullable .str au), ("privacy", .str pr), ("layout", .str la), ("views", .num vw), ("link", .str li), ("favorite", .bool fa), ("nsfw", encodeNullable .bool nw), ("section", encodeNullable .str se), ("order", .num od), ("deletehash", encodeNullable .str dh), ("images_count", .num ic), ("images", .null), ("in_gallery", .bool ig)] : List (String × Json)).map Prod.fst
      = ["id", "title", "description", "datetime", "cover", "cover_width", "cover_height", "account_url", "privacy", "layout", "views", "link", "favorite", "nsfw", "section", "order", "deletehash", "images_count", "images", "in_gallery"] := rfl
  have hla0 : lookupKey [("id", .str aid), ("title", .str ti), ("description", .str de), ("datetime", .num dt), ("cover", .str co), ("cover_width", .num cw), ("cover_height", .num ch), ("account_url", encodeNullable .str au), ("privacy", .str pr), ("layout", .str la), ("views", .num vw), ("link", .str li), ("favorite", .bool fa), ("nsfw", encodeNullable .bool nw), ("section", encodeNullable .str se), ("order", .num od), ("deletehash", encodeNullable .str dh), ("images_count", .num ic), ("images", .null), ("in_gallery", .bool ig)] "id" = some (.str aid) := rfl
  have ha0 : reqField [("id", .str aid), ("title", .str ti), ("description", .str de), ("datetime", .num dt), ("cover", .str co), ("cover_width", .num cw), ("cover_height", .num ch), ("account_url", encodeNullable .str au), ("privacy", .str pr), ("layout", .str la), ("views", .num vw), ("link", .str li), ("favorite", .bool fa), ("nsfw", encodeNullable .bool nw), ("section", encodeNullable .str se), ("order", .num od), ("deletehash", encodeNullable .str dh), ("images_count", .num ic), ("images", .null), ("in_gallery", .bool ig)] "id" decodeString = some (aid : _) := by
    rw [reqField_eq _ _ _ _ (by rw [countKey_eq_count, hmapa]; rfl) hla0]
    rfl
  have hla1 : lookupKey [("id", .str aid), ("title", .str ti), ("description", .str de), ("datetime", .num dt), ("cover", .str co), ("cover_width", .num cw), ("cover_height", .num ch), ("account_url", encodeNullable .str au), ("privacy", .str pr), ("layout", .str la), ("views", .num vw), ("link", .str li), ("favorite", .bool fa), ("nsfw", encodeNullable .bool nw), ("section", encodeNullable .str se), ("order", .num od), ("deletehash", encodeNullable .str dh), ("images_count", .num ic), ("images", .null), ("in_gallery", .bool ig)] "title" = some (.str ti) := rfl
  have ha1 : reqField [("id", .str aid), ("title", .str ti), ("description", .str de), ("datetime", .num dt), ("cover", .str co), ("cover_width", .num cw), ("cover_height", .num ch), ("account_url", encodeNullable .str au), ("privacy", .str pr), ("layout", .str la), ("views", .num vw), ("link", .str li), ("favorite", .bool fa), ("nsfw", encodeNullable .bool nw), ("section", encodeNullable .str se), ("order", .num od), ("deletehash", encodeNullable .str dh), ("images_count", .num ic), ("images", .null), ("in_gallery", .bool ig)] "title" decodeString = some (ti : _) := by
    rw [reqField_eq _ _ _ _ (by rw [countKey_eq_count, hmapa]; rfl) hla1]
    rfl
  have hla2 : lookupKey [("id", .str aid), ("title", .str ti), ("description", .str de), ("datetime", .num dt), ("cover", .str co), ("cover_width", .num cw), ("cover_height", .num ch), ("account_url", encodeNullable .str au), ("privacy", .str pr), ("layout", .str la), ("views", .num vw), ("link", .str li), ("favorite", .bool fa), ("nsfw", encodeNullable .bool nw), ("section", encodeNullable .str se), ("order", .num od), ("deletehash", encodeNullable .str dh), ("images_count", .num ic), ("images", .null), ("in_gallery", .bool ig)] "description" = some (.str de) := rfl
  have ha2 : reqField [("id", .str aid), ("title", .str ti), ("description", .str de), ("datetime", .num dt), ("cover", .str co), ("cover_width", .num cw), ("cover_height", .num ch), ("account_url", encodeNullable .str au), ("privacy", .str pr), ("layout", .str la), ("views", .num vw), ("link", .str li), ("favorite", .bool fa), ("nsfw", encodeNullable .bool nw), ("section", encodeNullable .str se), ("order", .num od), ("deletehash", encodeNullable .str dh), ("images_count", .num ic), ("images", .null), ("in_gallery", .bool ig)] "description" decodeString = some (de : _) := by
    rw [reqField_eq _ _ _ _ (by rw [countKey_eq_count, hmapa]; rfl) hla2]
    rfl
  have hla3 : lookupKey [("id", .str aid), ("title", .str ti), ("description", .str de), ("datetime", .num dt), ("cover", .str co), ("cover_width", .num cw), ("cover_height", .num ch), ("account_url", encodeNullable .str au), ("privacy", .str pr), ("layout", .str la), ("views", .num vw), ("link", .str li), ("favorite", .bool fa), ("nsfw", encodeNullable .bool nw), ("section", encodeNullable .str se), ("order", .num od), ("deletehash", encodeNullable .str dh), ("images_count", .num ic), ("images", .null), ("in_gallery", .bool ig)] "datetime" = some (.num dt) := rfl
  have ha3 : reqField [("id", .str aid), ("title", .str ti), ("description", .str de), ("datetime", .num dt), ("cover", .str co), ("cover_width", .num cw), ("cover_height", .num ch), ("account_url", encodeNullable .str au), ("privacy", .str pr), ("layout", .str la), ("views", .num vw), ("link", .str li), ("favorite", .bool fa), ("nsfw", encodeNullable .bool nw), ("section", encodeNullable .str se), ("order", .num od), ("deletehash", encodeNullable .str dh), ("images_count", .num ic), ("images", .null), ("in_gallery", .bool ig)] "datetime" decodeU32 = some (dt : _) := by
    rw [reqField_eq _ _ _ _ (by rw [countKey_eq_count, hmapa]; rfl) hla3]
    rw [decodeU32_num, if_pos hdt]
  have hla4 : lookupKey [("id", .str aid), ("title", .str ti), ("description", .str de), ("datetime", .num dt), ("cover", .str co), ("cover_width", .num cw), ("cover_height", .num ch), ("account_url", encodeNullable .str au), ("privacy", .str pr), ("layout", .str la), ("views", .num vw), ("link", .str li), ("favorite", .bool fa), ("nsfw", encodeNullable .bool nw), ("section", encodeNullable .str se), ("order", .num od), ("deletehash", encodeNullable .str dh), ("images_count", .num ic), ("images", .null), ("in_gallery", .bool ig)] "cover" = some (.str co) := rfl
  have ha4 : reqField [("id", .str aid), ("title", .str ti), ("description", .str de), ("datetime", .num dt), ("cover", .str co), ("cover_width", .num cw), ("cover_height", .num ch), ("account_url", encodeNullable .str au), ("privacy", .str pr), ("layout", .str la), ("views", .num vw), ("link", .str li), ("favorite", .bool fa), ("nsfw", encodeNullable .bool nw), ("section", encodeNullable .str se), ("order", .num od), ("deletehash", encodeNullable .str dh), ("images_count", .num ic), ("images", .null), ("in_gallery", .bool ig)] "cover" decodeString = some (co : _) := by
    rw [reqField_eq _ _ _ _ (by rw [countKey_eq_count, hmapa]; rfl) hla4]
    rfl
  have hla5 : lookupKey [("id", .str aid), ("title", .str ti), ("description", .str de), ("datetime", .num dt), ("cover", .str co), ("cover_width", .num cw), ("cover_height", .num ch), ("account_url", encodeNullable .str au), ("privacy", .str pr), ("layout", .str la), ("views", .num vw), ("link", .str li), ("favorite", .bool fa), ("nsfw", encodeNullable .bool nw), ("section", encodeNullable .str se), ("order", .num od), ("deletehash", encodeNullable .str dh), ("images_count", .num ic), ("images", .null), ("in_gallery", .bool ig)] "cover_width" = some (.num cw) := rfl
  have ha5 : reqField [("id", .str aid), ("title", .str ti), ("description", .str de), ("datetime", .num dt), ("cover", .str co), ("cover_width", .num cw), ("cover_height", .num ch), ("account_url", encodeNullable .str au), ("privacy", .str pr), ("layout", .str la), ("views", .num vw), ("link", .str li), ("favorite", .bool fa), ("nsfw", encodeNullable .bool nw), ("section", encodeNullable .str se), ("order", .num od), ("deletehash", encodeNullable .str dh), ("images_count", .num ic), ("images", .null), ("in_gallery", .bool ig)] "cover_width" decodeU32 = some (cw : _) := by
    rw [reqField_eq _ _ _ _ (by rw [countKey_eq_count, hmapa]; rfl) hla5]
    rw [decodeU32_num, if_pos hcw]
  have hla6 : lookupKey [("id", .str aid), ("title", .str ti), ("description", .str de), ("datetime", .num dt), ("cover", .str co), ("cover_width", .num cw), ("cover_height", .num ch), ("account_url", encodeNullable .str au), ("privacy", .str pr), ("layout", .str la), ("views", .num vw), ("link", .str li), ("favorite", .bool fa), ("nsfw", encodeNullable .bool nw), ("section", encodeNullable .str se), ("order", .num od), ("deletehash", encodeNullable .str dh), ("images_count", .num ic), ("images", .null), ("in_gallery", .bool ig)] "cover_height" = some (.num ch) := rfl
  have ha6 : reqField [("id", .str aid), ("title", .str ti), ("description", .str de), ("datetime", .num dt), ("cover", .str co), ("cover_width", .num cw), ("cover_height", .num ch), ("account_url", encodeNullable .str au), ("privacy", .str pr), ("layout", .str la), ("views", .num vw), ("link", .str li), ("favorite", .bool fa), ("nsfw", encodeNullable .bool nw), ("section", encodeNullable .str se), ("order", .num od), ("deletehash", encodeNullable .str dh), ("images_count", .num ic), ("images", .null), ("in_gallery", .bool ig)] "cover_height" decodeU32 = some (ch : _) := by
    rw [reqField_eq _ _ _ _ (by rw [countKey_eq_count, hmapa]; rfl) hla6]
    rw [decodeU32_num, if_pos hch]
  have hla7 : lookupKey [("id", .str aid), ("title", .str ti), ("description", .str de), ("datetime", .num dt), ("cover", .str co), ("cover_width", .num cw), ("cover_height", .num ch), ("account_url", encodeNullable .str au), ("privacy", .str pr), ("layout", .str la), ("views", .num vw), ("link", .str li), ("favorite", .bool fa), ("nsfw", encodeNullable .bool nw), ("section", encodeNullable .str se), ("order", .num od), ("deletehash", encodeNullable .str dh), ("images_count", .num ic), ("images", .null), ("in_gallery", .bool ig)] "account_url" = some (encodeNullable .str au) := rfl
  have ha7 : optField [("id", .str aid), ("title", .str ti), ("description", .str de), ("datetime", .num dt), ("cover", .str co), ("cover_width", .num cw), ("cover_height", .num ch), ("account_url", encodeNullable .str au), ("privacy", .str pr), ("layout", .str la), ("views", .num vw), ("link", .str li), ("favorite", .bool fa), ("nsfw", encodeNullable .bool nw), ("section", encodeNullable .str se), ("order", .num od), ("deletehash", encodeNullable .str dh), ("images_count", .num ic), ("images", .null), ("in_gallery", .bool ig)] "account_url" decodeString = some au := by
    rw [optField_present _ _ _ _ (by rw [countKey_eq_count, hmapa]; rfl) hla7]
    exact decodeNullable_encode_str au
  have hla8 : lookupKey [("id", .str aid), ("title", .str ti), ("description", .str de), ("datetime", .num dt), ("cover", .str co), ("cover_width", .num cw), ("cover_height", .num ch), ("account_url", encodeNullable .str au), ("privacy", .str pr), ("layout", .str la), ("views", .num vw), ("link", .str li), ("favorite", .bool fa), ("nsfw", encodeNullable .bool nw), ("section", encodeNullable .str se), ("order", .num od), ("deletehash", encodeNullable .str dh), ("images_count", .num ic), ("images", .null), ("in_gallery", .bool ig)] "privacy" = some (.str pr) := rfl
  have ha8 : reqField [("id", .str aid), ("title", .str ti), ("description", .str de), ("datetime", .num dt), ("cover", .str co), ("cover_width", .num cw), ("cover_height", .num ch), ("account_url", encodeNullable .str au), ("privacy", .str pr), ("layout", .str la), ("views", .num vw), ("link", .str li), ("favorite", .bool fa), ("nsfw", encodeNullable .bool nw), ("section", encodeNullable .str se), ("order", .num od), ("deletehash", encodeNullable .str dh), ("images_count", .num ic), ("images", .null), ("in_gallery", .bool ig)] "privacy" decodeString = some (pr : _) := by
    rw [reqField_eq _ _ _ _ (by rw [countKey_eq_count, hmapa]; rfl) hla8]
    rfl
  have hla9 : lookupKey [("id", .str aid), ("title", .str ti), ("description", .str de), ("datetime", .num dt), ("cover", .str co), ("cover_width", .num cw), ("cover_height", .num ch), ("account_url", encodeNullable .str au), ("privacy", .str pr), ("layout", .str la), ("views", .num vw), ("link", .str li), ("favorite", .bool fa), ("nsfw", encodeNullable .bool nw), ("section", encodeNullable .str se), ("order", .num od), ("deletehash", encodeNullable .str dh), ("images_count", .num ic), ("images", .null), ("in_gallery", .bool ig)] "layout" = some (.str la) := rfl
  have ha9 : reqField [("id", .str aid), ("title", .str ti), ("description", .str de), ("datetime", .num dt), ("cover", .str co), ("cover_width", .num cw), ("cover_height", .num ch), ("account_url", encodeNullable .str au), ("privacy", .str pr), ("layout", .str la), ("views", .num vw), ("link", .str li), ("favorite", .bool fa), ("nsfw", encodeNullable .bool nw), ("section", encodeNullable .str se), ("order", .num od), ("deletehash", encodeNullable .str dh), ("images_count", .num ic), ("images", .null), ("in_gallery", .bool ig)] "layout" decodeString = some (la : _) := by
    rw [reqField_eq _ _ _ _ (by rw [countKey_eq_count, hmapa]; rfl) hla9]
    rfl
  have hla10 : lookupKey [("id", .str aid), ("title", .str ti), ("description", .str de), ("datetime", .num dt), ("cover", .str co), ("cover_width", .num cw), ("cover_height", .num ch), ("account_url", encodeNullable .str au), ("privacy", .str pr), ("layout", .str la), ("views", .num vw), ("link", .str li), ("favorite", .bool fa), ("nsfw", encodeNullable .bool nw), ("section", encodeNullable .str se), ("order", .num od), ("deletehash", encodeNullable .str dh), ("images_count", .num ic), ("images", .null), ("in_gallery", .bool ig)] "views" = some (.num vw) := rfl
  have ha10 : reqField [("id", .str aid), ("title", .str ti), ("description", .str de), ("datetime", .num dt), ("cover", .str co), ("cover_width", .num cw), ("cover_height", .num ch), ("account_url", encodeNullable .str au), ("privacy", .str pr), ("layout", .str la), ("views", .num vw), ("link", .str li), ("favorite", .bool fa), ("nsfw", encodeNullable .bool nw), ("section", encodeNullable .str se), ("order", .num od), ("deletehash", encodeNullable .str dh), ("images_count", .num ic), ("images", .null), ("in_gallery", .bool ig)] "views" decodeU32 = some (vw : _) := by
    rw [reqField_eq _ _ _ _ (by rw [countKey_eq_count, hmapa]; rfl) hla10]
    rw [decodeU32_num, if_pos hvw]
  have hla11 : lookupKey [("id", .str aid), ("title", .str ti), ("description", .str de), ("datetime", .num dt), ("cover", .str co), ("cover_width", .num cw), ("cover_height", .num ch), ("account_url", encodeNullable .str au), ("privacy", .str pr), ("layout", .str la), ("views", .num vw), ("link", .str li), ("favorite", .bool fa), ("nsfw", encodeNullable .bool nw), ("section", encodeNullable .str se), ("order", .num od), ("deletehash", encodeNullable .str dh), ("images_count", .num ic), ("images", .null), ("in_gallery", .bool ig)] "link" = some (.str li) := rfl
  have ha11 : reqField [("id", .str aid), ("title", .str ti), ("description", .str de), ("datetime", .num dt), ("cover", .str co), ("cover_width", .num cw), ("cover_height", .num ch), ("account_url", encodeNullable .str au), ("privacy", .str pr), ("layout", .str la), ("views", .num vw), ("link", .str li), ("favorite", .bool fa), ("nsfw", encodeNullable .bool nw), ("section", encodeNullable .str se), ("order", .num od), ("deletehash", encodeNullable .str dh), ("images_count", .num ic), ("images", .null), ("in_gallery", .bool ig)] "link" decodeString = some (li : _) := by
    rw [reqField_eq _ _ _ _ (by rw [countKey_eq_count, hmapa]; rfl) hla11]
    rfl
  have hla12 : lookupKey [("id", .str aid), ("title", .str ti), ("description", .str de), ("datetime", .num dt), ("cover", .str co), ("cover_width", .num cw), ("cover_height", .num ch), ("account_url", encodeNullable .str au), ("privacy", .str pr), ("layout", .str la), ("views", .num vw), ("link", .str li), ("favorite", .bool fa), ("nsfw", encodeNullable .bool nw), ("section", encodeNullable .str se), ("order", .num od), ("deletehash", encodeNullable .str dh), ("images_count", .num ic), ("images", .null), ("in_gallery", .bool ig)] "favorite" = some (.bool fa) := rfl
  have ha12 : reqField [("id", .str aid), ("title", .str ti), ("description", .str de), ("datetime", .num dt), ("cover", .str co), ("cover_width", .num cw), ("cover_height", .num ch), ("account_url", encodeNullable .str au), ("privacy", .str pr), ("layout", .str la), ("views", .num vw), ("link", .str li), ("favorite", .bool fa), ("nsfw", encodeNullable .bool nw), ("section", encodeNullable .str se), ("order", .num od), ("deletehash", encodeNullable .str dh), ("images_count", .num ic), ("images", .null), ("in_gallery", .bool ig)] "favorite" decodeBool = some (fa : _) := by
    rw [reqField_eq _ _ _ _ (by rw [countKey_eq_count, hmapa]; rfl) hla12]
    rfl
  have hla13 : lookupKey [("id", .str aid), ("title", .str ti), ("description", .str de), ("datetime", .num dt), ("cover", .str co), ("cover_width", .num cw), ("cover_height", .num ch), ("account_url", encodeNullable .str au), ("privacy", .str pr), ("layout", .str la), ("views", .num vw), ("link", .str li), ("favorite", .bool fa), ("nsfw", encodeNullable .bool nw), ("section", encodeNullable .str se), ("order", .num od), ("deletehash", encodeNullable .str dh), ("images_count", .num ic), ("images", .null), ("in_gallery", .bool ig)] "nsfw" = some (encodeNullable .bool nw) := rfl
  have ha13 : optField [("id", .str aid), ("title", .str ti), ("description", .str de), ("datetime", .num dt), ("cover", .str co), ("cover_width", .num cw), ("cover_height", .num ch), ("account_url", encodeNullable .str au), ("privacy", .str pr), ("layout", .str la), ("views", .num vw), ("link", .str li), ("favorite", .bool fa), ("nsfw", encodeNullable .bool nw), ("section", encodeNullable .str se), ("order", .num od), ("deletehash", encodeNullable .str dh), ("images_count", .num ic), ("images", .null), ("in_gallery", .bool ig)] "nsfw" decodeBool = some nw := by
    rw [optField_present _ _ _ _ (by rw [countKey_eq_count, hmapa]; rfl) hla13]
    exact decodeNullable_encode_bool nw
  have hla14 : lookupKey [("id", .str aid), ("title", .str ti), ("description", .str de), ("datetime", .num dt), ("cover", .str co), ("cover_width", .num cw), ("cover_height", .num ch), ("account_url", encodeNullable .str au), ("privacy", .str pr), ("layout", .str la), ("views", .num vw), ("link", .str li), ("favorite", .bool fa), ("nsfw", encodeNullable .bool nw), ("section", encodeNullable .str se), ("order", .num od), ("deletehash", encodeNullable .str dh), ("images_count", .num ic), ("images", .null), ("in_gallery", .bool ig)] "section" = some (encodeNullable .str se) := rfl
  have ha14 : optField [("id", .str aid), ("title", .str ti), ("description", .str de), ("datetime", .num dt), ("cover", .str co), ("cover_width", .num cw), ("cover_height", .num ch), ("account_url", encodeNullable .str au), ("privacy", .str pr), ("layout", .str la), ("views", .num vw), ("link", .str li), ("favorite", .bool fa), ("nsfw", encodeNullable .bool nw), ("section", encodeNullable .str se), ("order", .num od), ("deletehash", encodeNullable .str dh), ("images_count", .num ic), ("images", .null), ("in_gallery", .bool ig)] "section" decodeString = some se := by
    rw [optField_present _ _ _ _ (by rw [countKey_eq_count, hmapa]; rfl) hla14]
    exact decodeNullable_encode_str se
  have hla15 : lookupKey [("id", .str aid), ("title", .str ti), ("description", .str de), ("datetime", .num dt), ("cover", .str co), ("cover_width", .num cw), ("cover_height", .num ch), ("account_url", encodeNullable .str au), ("privacy", .str pr), ("layout", .str la), ("views", .num vw), ("link", .str li), ("favorite", .bool fa), ("nsfw", encodeNullable .bool nw), ("section", encodeNullable .str se), ("order", .num od), ("deletehash", encodeNullable .str dh), ("images_count", .num ic), ("images", .null), ("in_gallery", .bool ig)] "order" = some (.num od) := rfl
  have ha15 : reqField [("id", .str aid), ("title", .str ti), ("description", .str de), ("datetime", .num dt), ("cover", .str co), ("cover_width", .num cw), ("cover_height", .num ch), ("account_url", encodeNullable .str au), ("privacy", .str pr), ("layout", .str la), ("views", .num vw), ("link", .str li), ("favorite", .bool fa), ("nsfw", encodeNullable .bool nw), ("section", encodeNullable .str se), ("order", .num od), ("deletehash", encodeNullable .str dh), ("images_count", .num ic), ("images", .null), ("in_gallery", .bool ig)] "order" decodeU32 = some (od : _) := by
    rw [reqField_eq _ _ _ _ (by rw [countKey_eq_count, hmapa]; rfl) hla15]
    rw [decodeU32_num, if_pos hod]
  have hla16 : lookupKey [("id", .str aid), ("title", .str ti), ("description", .str de), ("datetime", .num dt), ("cover", .str co), ("cover_width", .num cw), ("cover_height", .num ch), ("account_url", encodeNullable .str au), ("privacy", .str pr), ("layout", .str la), ("views", .num vw), ("link", .str li), ("favorite", .bool fa), ("nsfw", encodeNullable .bool nw), ("section", encodeNullable .str se), ("order", .num od), ("deletehash", encodeNullable .str dh), ("images_count", .num ic), ("images", .null), ("in_gallery", .bool ig)] "deletehash" = some (encodeNullable .str dh) := rfl
  have ha16 : optField [("id", .str aid), ("title", .str ti), ("description", .str de), ("datetime", .num dt), ("cover", .str co), ("cover_width", .num cw), ("cover_height", .num ch), ("account_url", encodeNullable .str au), ("privacy", .str pr), ("layout", .str la), ("views", .num vw), ("link", .str li), ("favorite", .bool fa), ("nsfw", encodeNullable .bool nw), ("section", encodeNullable .str se), ("order", .num od), ("deletehash", encodeNullable .str dh), ("images_count", .num ic), ("images", .null), ("in_gallery", .bool ig)] "deletehash" decodeString = some dh := by
    rw [optField_present _ _ _ _ (by rw [countKey_eq_count, hmapa]; rfl) hla16]
    exact decodeNullable_encode_str dh
  have hla17 : lookupKey [("id", .str aid), ("title", .str ti), ("description", .str de), ("datetime", .num dt), ("cover", .str co), ("cover_width", .num cw), ("cover_height", .num ch), ("account_url", encodeNullable .str au), ("privacy", .str pr), ("layout", .str la), ("views", .num vw), ("link", .str li), ("favorite", .bool fa), ("nsfw", encodeNullable .bool nw), ("section", encodeNullable .str se), ("order", .num od), ("deletehash", encodeNullable .str dh), ("images_count", .num ic), ("images", .null), ("in_gallery", .bool ig)] "images_count" = some (.num ic) := rfl
  have ha17 : reqField [("id", .str aid), ("title", .str ti), ("description", .str de), ("datetime", .num dt), ("cover", .str co), ("cover_width", .num cw), ("cover_height", .num ch), ("account_url", encodeNullable .str au), ("privacy", .str pr), ("layout", .str la), ("views", .num vw), ("link", .str li), ("favorite", .bool fa), ("nsfw", encodeNullable .bool nw), ("section", encodeNullable .str se), ("order", .num od), ("deletehash", encodeNullable .str dh), ("images_count", .num ic), ("images", .null), ("in_gallery", .bool ig)] "images_count" decodeU32 = some (ic : _) := by
    rw [reqField_eq _ _ _ _ (by rw [countKey_eq_count, hmapa]; rfl) hla17]
    rw [decodeU32_num, if_pos hic]
  have hla18 : lookupKey [("id", .str aid), ("title", .str ti), ("description", .str de), ("datetime", .num dt), ("cover", .str co), ("cover_width", .num cw), ("cover_height", .num ch), ("account_url", encodeNullable .str au), ("privacy", .str pr), ("layout", .str la), ("views", .num vw), ("link", .str li), ("favorite", .bool fa), ("nsfw", encodeNullable .bool nw), ("section", encodeNullable .str se), ("order", .num od), ("deletehash", encodeNullable .str dh), ("images_count", .num ic), ("images", .null), ("in_gallery", .bool ig)] "images" = some (.null) := rfl
  have ha18 : optField [("id", .str aid), ("title", .str ti), ("description", .str de), ("datetime", .num dt), ("cover", .str co), ("cover_width", .num cw), ("cover_height", .num ch), ("account_url", encodeNullable .str au), ("privacy", .str pr), ("layout", .str la), ("views", .num vw), ("link", .str li), ("favorite", .bool fa), ("nsfw", encodeNullable .bool nw), ("section", encodeNullable .str se), ("order", .num od), ("deletehash", encodeNullable .str dh), ("images_count", .num ic), ("images", .null), ("in_gallery", .bool ig)] "images" (decodeList decodeImage) = some none := by
    rw [optField_present _ _ _ _ (by rw [countKey_eq_count, hmapa]; rfl) hla18]
    rfl
  have hla19 : lookupKey [("id", .str aid), ("title", .str ti), ("description", .str de), ("datetime", .num dt), ("cover", .str co), ("cover_width", .num cw), ("cover_height", .num ch), ("account_url", encodeNullable .str au), ("privacy", .str pr), ("layout", .str la), ("views", .num vw), ("link", .str li), ("favorite", .bool fa), ("nsfw", encodeNullable .bool nw), ("section", encodeNullable .str se), ("order", .num od), ("deletehash", encodeNullable .str dh), ("images_count", .num ic), ("images", .null), ("in_gallery", .bool ig)] "in_gallery" = some (.bool ig) := rfl
  have ha19 : reqField [("id", .str aid), ("title", .str ti), ("description", .str de), ("datetime", .num dt), ("cover", .str co), ("cover_width", .num cw), ("cover_height", .num ch), ("account_url", encodeNullable .str au), ("privacy", .str pr), ("layout", .str la), ("views", .num vw), ("link", .str li), ("favorite", .bool fa), ("nsfw", encodeNullable .bool nw), ("section", encodeNullable .str se), ("order", .num od), ("deletehash", encodeNullable .str dh), ("images_count", .num ic), ("images", .null), ("in_gallery", .bool ig)] "in_gallery" decodeBool = some (ig : _) := by
    rw [reqField_eq _ _ _ _ (by rw [countKey_eq_count, hmapa]; rfl) hla19]
    rfl
  simp only [decodeAlbum, ha0, ha1, ha2, ha3, ha4, ha5, ha6, ha7, ha8, ha9, ha10, ha11, ha12, ha13, ha14, ha15, ha16, ha17, ha18, ha19, obind_some]

/-- The album object without an `images` entry decodes with `images`
resolved to `none`. -/
theorem decodeAlbum_missing_images (aid ti de co pr la li : String) (fa ig : Bool)
  (dt cw ch vw od ic : Nat) (au se dh : Option String) (nw : Option Bool)
  (hdt : dt < 2 ^ 32) (hcw : cw < 2 ^ 32) (hch : ch < 2 ^ 32)
  (hvw : vw < 2 ^ 32) (hod : od < 2 ^ 32) (hic : ic < 2 ^ 32) :
  decodeAlbum
      (.obj [("id", .str aid), ("title", .str ti), ("description", .str de), ("datetime", .num dt), ("cover", .str co), ("cover_width", .num cw), ("cover_height", .num ch), ("account_url", encodeNullable .str au), ("privacy", .str pr), ("layout", .str la), ("views", .num vw), ("link", .str li), ("favorite", .bool fa), ("nsfw", encodeNullable .bool nw), ("section", encodeNullable .str se), ("order", .num od), ("deletehash", encodeNullable .str dh), ("images_count", .num ic), ("in_gallery", .bool ig)])
    = some
        { id := aid, title := ti, description := de, datetime := dt,
          cover := co, cover_width := cw, cover_height := ch,
          account_url := au, privacy := pr, layout := la, views := vw,
          link := li, favorite := fa, nsfw := nw, «section» := se,
          order := od, deletehash := dh, images_count := ic,
          images := none, in_gallery := ig } := by
  have hmapb : ([("id", .str aid), ("title", .str ti), ("description", .str de), ("datetime", .num dt), ("cover", .str co), ("cover_width", .num cw), ("cover_height", .num ch), ("account_url", encodeNullable .str au), ("privacy", .str pr), ("layout", .str la), ("views", .num vw), ("link", .str li), ("favorite", .bool fa), ("nsfw", encodeNullable .bool nw), ("section", encodeNullable .str se), ("order", .num od), ("deletehash", encodeNullable .str dh), ("images_count", .num ic), ("in_gallery", .bool ig)] : List (String × Json)).map Prod.fst
      = ["id", "title", "description", "datetime", "cover", "cover_width", "cover_height", "account_url", "privacy", "layout", "views", "link", "favorite", "nsfw", "section", "order", "deletehash", "images_count", "in_gallery"] := rfl
  have hlb0 : lookupKey [("id", .str aid), ("title", .str ti), ("description", .str de), ("datetime", .num dt), ("cover", .str co), ("cover_width", .num cw), ("cover_height", .num ch), ("account_url", encodeNullable .str au), ("privacy", .str pr), ("layout", .str la), ("views", .num vw), ("link", .str li), ("favorite", .bool fa), ("nsfw", encodeNullable .bool nw), ("section", encodeNullable .str se), ("order", .num od), ("deletehash", encodeNullable .str dh), ("images_count", .num ic), ("in_gallery", .bool ig)] "id" = some (.str aid) := rfl
  have hb0 : reqField [("id", .str aid), ("title", .str ti), ("description", .str de), ("datetime", .num dt), ("cover", .str co), ("cover_width", .num cw), ("cover_height", .num ch), ("account_url", encodeNullable .str au), ("privacy", .str pr), ("layout", .str la), ("views", .num vw), ("link", .str li), ("favorite", .bool fa), ("nsfw", encodeNullable .bool nw), ("section", encodeNullable .str se), ("order", .num od), ("deletehash", encodeNullable .str dh), ("images_count", .num ic), ("in_gallery", .bool ig)] "id" decodeString = some (aid : _) := by
    rw [reqField_eq _ _ _ _ (by rw [countKey_eq_count, hmapb]; rfl) hlb0]
    rfl
  have hlb1 : lookupKey [("id", .str aid), ("title", .str ti), ("description", .str de), ("datetime", .num dt), ("cover", .str co), ("cover_width", .num cw), ("cover_height", .num ch), ("account_url", encodeNullable .str au), ("privacy", .str pr), ("layout", .str la), ("views", .num vw), ("link", .str li), ("favorite", .bool fa), ("nsfw", encodeNullable .bool nw), ("section", encodeNullable .str se), ("order", .num od), ("deletehash", encodeNullable .str dh), ("images_count", .num ic), ("in_gallery", .bool ig)] "title" = some (.str ti) := rfl
  have hb1 : reqField [("id", .str aid), ("title", .str ti), ("description", .str de), ("datetime", .num dt), ("cover", .str co), ("cover_width", .num cw), ("cover_height", .num ch), ("account_url", encodeNullable .str au), ("privacy", .str pr), ("layout", .str la), ("views", .num vw), ("link", .str li), ("favorite", .bool fa), ("nsfw", encodeNullable .bool nw), ("section", encodeNullable .str se), ("order", .num od), ("deletehash", encodeNullable .str dh), ("images_count", .num ic), ("in_gallery", .bool ig)] "title" decodeString = some (ti : _) := by
    rw [reqField_eq _ _ _ _ (by rw [countKey_eq_count, hmapb]; rfl) hlb1]
    rfl
  have hlb2 : lookupKey [("id", .str aid), ("title", .str ti), ("description", .str de), ("datetime", .num dt), ("cover", .str co), ("cover_width", .num cw), ("cover_height", .num ch), ("account_url", encodeNullable .str au), ("privacy", .str pr), ("layout", .str la), ("views", .num vw), ("link", .str li), ("favorite", .bool fa), ("nsfw", encodeNullable .bool nw), ("section", encodeNullable .str se), ("order", .num od), ("deletehash", encodeNullable .str dh), ("images_count", .num ic), ("in_gallery", .bool ig)] "description" = some (.str de) := rfl
  have hb2 : reqField [("id", .str aid), ("title", .str ti), ("description", .str de), ("datetime", .num dt), ("cover", .str co), ("cover_width", .num cw), ("cover_height", .num ch), ("account_url", encodeNullable .str au), ("privacy", .str pr), ("layout", .str la), ("views", .num vw), ("link", .str li), ("favorite", .bool fa), ("nsfw", encodeNullable .bool nw), ("section", encodeNullable .str se), ("order", .num od), ("deletehash", encodeNullable .str dh), ("images_count", .num ic), ("in_gallery", .bool ig)] "description" decodeString = some (de : _) := by
    rw [reqField_eq _ _ _ _ (by rw [countKey_eq_count, hmapb]; rfl) hlb2]
    rfl
  have hlb3 : lookupKey [("id", .str aid), ("title", .str ti), ("description", .str de), ("datetime", .num dt), ("cover", .str co), ("cover_width", .num cw), ("cover_height", .num ch), ("account_url", encodeNullable .str au), ("privacy", .str pr), ("layout", .str la), ("views", .num vw), ("link", .str li), ("favorite", .bool fa), ("nsfw", encodeNullable .bool nw), ("section", encodeNullable .str se), ("order", .num od), ("deletehash", encodeNullable .str dh), ("images_count", .num ic), ("in_gallery", .bool ig)] "datetime" = some (.num dt) := rfl
  have hb3 : reqField [("id", .str aid), ("title", .str ti), ("description", .str de), ("datetime", .num dt), ("cover", .str co), ("cover_width", .num cw), ("cover_height", .num ch), ("account_url", encodeNullable .str au), ("privacy", .str pr), ("layout", .str la), ("views", .num vw), ("link", .str li), ("favorite", .bool fa), ("nsfw", encodeNullable .bool nw), ("section", encodeNullable .str se), ("order", .num od), ("deletehash", encodeNullable .str dh), ("images_count", .num ic), ("in_gallery", .bool ig)] "datetime" decodeU32 = some (dt : _) := by
    rw [reqField_eq _ _ _ _ (by rw [countKey_eq_count, hmapb]; rfl) hlb3]
    rw [decodeU32_num, if_pos hdt]
  have hlb4 : lookupKey [("id", .str aid), ("title", .str ti), ("description", .str de), ("datetime", .num dt), ("cover", .str co), ("cover_width", .num cw), ("cover_height", .num ch), ("account_url", encodeNullable .str au), ("privacy", .str pr), ("layout", .str la), ("views", .num vw), ("link", .str li), ("favorite", .bool fa), ("nsfw", encodeNullable .bool nw), ("section", encodeNullable .str se), ("order", .num od), ("deletehash", encodeNullable .str dh), ("images_count", .num ic), ("in_gallery", .bool ig)] "cover" = some (.str co) := rfl
  have hb4 : reqField [("id", .str aid), ("title", .str ti), ("description", .str de), ("datetime", .num dt), ("cover", .str co), ("cover_width", .num cw), ("cover_height", .num ch), ("account_url", encodeNullable .str au), ("privacy", .str pr), ("layout", .str la), ("views", .num vw), ("link", .str li), ("favorite", .bool fa), ("nsfw", encodeNullable .bool nw), ("section", encodeNullable .str se), ("order", .num od), ("deletehash", encodeNullable .str dh), ("images_count", .num ic), ("in_gallery", .bool ig)] "cover" decodeString = some (co : _) := by
    rw [reqField_eq _ _ _ _ (by rw [countKey_eq_count, hmapb]; rfl) hlb4]
    rfl
  have hlb5 : lookupKey [("id", .str aid), ("title", .str ti), ("description", .str de), ("datetime", .num dt), ("cover", .str co), ("cover_width", .num cw), ("cover_height", .num ch), ("account_url", encodeNullable .str au), ("privacy", .str pr), ("layout", .str la), ("views", .num vw), ("link", .str li), ("favorite", .bool fa), ("nsfw", encodeNullable .bool nw), ("section", encodeNullable .str se), ("order", .num od), ("deletehash", encodeNullable .str dh), ("images_count", .num ic), ("in_gallery", .bool ig)] "cover_width" = some (.num cw) := rfl
  have hb5 : reqField [("id", .str aid), ("title", .str ti), ("description", .str de), ("datetime", .num dt), ("cover", .str co), ("cover_width", .num cw), ("cover_height", .num ch), ("account_url", encodeNullable .str au), ("privacy", .str pr), ("layout", .str la), ("views", .num vw), ("link", .str li), ("favorite", .bool fa), ("nsfw", encodeNullable .bool nw), ("section", encodeNullable .str se), ("order", .num od), ("deletehash", encodeNullable .str dh), ("images_count", .num ic), ("in_gallery", .bool ig)] "cover_width" decodeU32 = some (cw : _) := by
    rw [reqField_eq _ _ _ _ (by rw [countKey_eq_count, hmapb]; rfl) hlb5]
    rw [decodeU32_num, if_pos hcw]
  have hlb6 : lookupKey [("id", .str aid), ("title", .str ti), ("description", .str de), ("datetime", .num dt), ("cover", .str co), ("cover_width", .num cw), ("cover_height", .num ch), ("account_url", encodeNullable .str au), ("privacy", .str pr), ("layout", .str la), ("views", .num vw), ("link", .str li), ("favorite", .bool fa), ("nsfw", encodeNullable .bool nw), ("section", encodeNullable .str se), ("order", .num od), ("deletehash", encodeNullable .str dh), ("images_count", .num ic), ("in_gallery", .bool ig)] "cover_height" = some (.num ch) := rfl
  have hb6 : reqField [("id", .str aid), ("title", .str ti), ("description", .str de), ("datetime", .num dt), ("cover", .str co), ("cover_width", .num cw), ("cover_height", .num ch), ("account_url", encodeNullable .str au), ("privacy", .str pr), ("layout", .str la), ("views", .num vw), ("link", .str li), ("favorite", .bool fa), ("nsfw", encodeNullable .bool nw), ("section", encodeNullable .str se), ("order", .num od), ("deletehash", encodeNullable .str dh), ("images_count", .num ic), ("in_gallery", .bool ig)] "cover_height" decodeU32 = some (ch : _) := by
    rw [reqField_eq _ _ _ _ (by rw [countKey_eq_count, hmapb]; rfl) hlb6]
    rw [decodeU32_num, if_pos hch]
  have hlb7 : lookupKey [("id", .str aid), ("title", .str ti), ("description", .str de), ("datetime", .num dt), ("cover", .str co), ("cover_width", .num cw), ("cover_height", .num ch), ("account_url", encodeNullable .str au), ("privacy", .str pr), ("layout", .str la), ("views", .num vw), ("link", .str li), ("favorite", .bool fa), ("nsfw", encodeNullable .bool nw), ("section", encodeNullable .str se), ("order", .num od), ("deletehash", encodeNullable .str dh), ("images_count", .num ic), ("in_gallery", .bool ig)] "account_url" = some (encodeNullable .str au) := rfl
  have hb7 : optField [("id", .str aid), ("title", .str ti), ("description", .str de), ("datetime", .num dt), ("cover", .str co), ("cover_width", .num cw), ("cover_height", .num ch), ("account_url", encodeNullable .str au), ("privacy", .str pr), ("layout", .str la), ("views", .num vw), ("link", .str li), ("favorite", .bool fa), ("nsfw", encodeNullable .bool nw), ("section", encodeNullable .str se), ("order", .num od), ("deletehash", encodeNullable .str dh), ("images_count", .num ic), ("in_gallery", .bool ig)] "account_url" decodeString = some au := by
    rw [optField_present _ _ _ _ (by rw [countKey_eq_count, hmapb]; rfl) hlb7]
    exact decodeNullable_encode_str au
  have hlb8 : lookupKey [("id", .str aid), ("title", .str ti), ("description", .str de), ("datetime", .num dt), ("cover", .str co), ("cover_width", .num cw), ("cover_height", .num ch), ("account_url", encodeNullable .str au), ("privacy", .str pr), ("layout", .str la), ("views", .num vw), ("link", .str li), ("favorite", .bool fa), ("nsfw", encodeNullable .bool nw), ("section", encodeNullable .str se), ("order", .num od), ("deletehash", encodeNullable .str dh), ("images_count", .num ic), ("in_gallery", .bool ig)] "privacy" = some (.str pr) := rfl
  have hb8 : reqField [("id", .str aid), ("title", .str ti), ("description", .str de), ("datetime", .num dt), ("cover", .str co), ("cover_width", .num cw), ("cover_height", .num ch), ("account_url", encodeNullable .str au), ("privacy", .str pr), ("layout", .str la), ("views", .num vw), ("link", .str li), ("favorite", .bool fa), ("nsfw", encodeNullable .bool nw), ("section", encodeNullable .str se), ("order", .num od), ("deletehash", encodeNullable .str dh), ("images_count", .num ic), ("in_gallery", .bool ig)] "privacy" decodeString = some (pr : _) := by
    rw [reqField_eq _ _ _ _ (by rw [countKey_eq_count, hmapb]; rfl) hlb8]
    rfl
  have hlb9 : lookupKey [("id", .str aid), ("title", .str ti), ("description", .str de), ("datetime", .num dt), ("cover", .str co), ("cover_width", .num cw), ("cover_height", .num ch), ("account_url", encodeNullable .str au), ("privacy", .str pr), ("layout", .str la), ("views", .num vw), ("link", .str li), ("favorite", .bool fa), ("nsfw", encodeNullable .bool nw), ("section", encodeNullable .str se), ("order", .num od), ("deletehash", encodeNullable .str dh), ("images_count", .num ic), ("in_gallery", .bool ig)] "layout" = some (.str la) := rfl
  have hb9 : reqField [("id", .str aid), ("title", .str ti), ("description", .str de), ("datetime", .num dt), ("cover", .str co), ("cover_width", .num cw), ("cover_height", .num ch), ("account_url", encodeNullable .str au), ("privacy", .str pr), ("layout", .str la), ("views", .num vw), ("link", .str li), ("favorite", .bool fa), ("nsfw", encodeNullable .bool nw), ("section", encodeNullable .str se), ("order", .num od), ("deletehash", encodeNullable .str dh), ("images_count", .num ic), ("in_gallery", .bool ig)] "layout" decodeString = some (la : _) := by
    rw [reqField_eq _ _ _ _ (by rw [countKey_eq_count, hmapb]; rfl) hlb9]
    rfl
  have hlb10 : lookupKey [("id", .str aid), ("title", .str ti), ("description", .str de), ("datetime", .num dt), ("cover", .str co), ("cover_width", .num cw), ("cover_height", .num ch), ("account_url", encodeNullable .str au), ("privacy", .str pr), ("layout", .str la), ("views", .num vw), ("link", .str li), ("favorite", .bool fa), ("nsfw", encodeNullable .bool nw), ("section", encodeNullable .str se), ("order", .num od), ("deletehash", encodeNullable .str dh), ("images_count", .num ic), ("in_gallery", .bool ig)] "views" = some (.num vw) := rfl
  have hb10 : reqField [("id", .str aid), ("title", .str ti), ("description", .str de), ("datetime", .num dt), ("cover", .str co), ("cover_width", .num cw), ("cover_height", .num ch), ("account_url", encodeNullable .str au), ("privacy", .str pr), ("layout", .str la), ("views", .num vw), ("link", .str li), ("favorite", .bool fa), ("nsfw", encodeNullable .bool nw), ("section", encodeNullable .str se), ("order", .num od), ("deletehash", encodeNullable .str dh), ("images_count", .num ic), ("in_gallery", .bool ig)] "views" decodeU32 = some (vw : _) := by
    rw [reqField_eq _ _ _ _ (by rw [countKey_eq_count, hmapb]; rfl) hlb10]
    rw [decodeU32_num, if_pos hvw]
  have hlb11 : lookupKey [("id", .str aid), ("title", .str ti), ("description", .str de), ("datetime", .num dt), ("cover", .str co), ("cover_width", .num cw), ("cover_height", .num ch), ("account_url", encodeNullable .str au), ("privacy", .str pr), ("layout", .str la), ("views", .num vw), ("link", .str li), ("favorite", .bool fa), ("nsfw", encodeNullable .bool nw), ("section", encodeNullable .str se), ("order", .num od), ("deletehash", encodeNullable .str dh), ("images_count", .num ic), ("in_gallery", .bool ig)] "link" = some (.str li) := rfl
  have hb11 : reqField [("id", .str aid), ("title", .str ti), ("description", .str de), ("datetime", .num dt), ("cover", .str co), ("cover_width", .num cw), ("cover_height", .num ch), ("account_url", encodeNullable .str au), ("privacy", .str pr), ("layout", .str la), ("views", .num vw), ("link", .str li), ("favorite", .bool fa), ("nsfw", encodeNullable .bool nw), ("section", encodeNullable .str se), ("order", .num od), ("deletehash", encodeNullable .str dh), ("images_count", .num ic), ("in_gallery", .bool ig)] "link" decodeString = some (li : _) := by
    rw [reqField_eq _ _ _ _ (by rw [countKey_eq_count, hmapb]; rfl) hlb11]
    rfl
  have hlb12 : lookupKey [("id", .str aid), ("title", .str ti), ("description", .str de), ("datetime", .num dt), ("cover", .str co), ("cover_width", .num cw), ("cover_height", .num ch), ("account_url", encodeNullable .str au), ("privacy", .str pr), ("layout", .str la), ("views", .num vw), ("link", .str li), ("favorite", .bool fa), ("nsfw", encodeNullable .bool nw), ("section", encodeNullable .str se), ("order", .num od), ("deletehash", encodeNullable .str dh), ("images_count", .num ic), ("in_gallery", .bool ig)] "favorite" = some (.bool fa) := rfl
  have hb12 : reqField [("id", .str aid), ("title", .str ti), ("description", .str de), ("datetime", .num dt), ("cover", .str co), ("cover_width", .num cw), ("cover_height", .num ch), ("account_url", encodeNullable .str au), ("privacy", .str pr), ("layout", .str la), ("views", .num vw), ("link", .str li), ("favorite", .bool fa), ("nsfw", encodeNullable .bool nw), ("section", encodeNullable .str se), ("order", .num od), ("deletehash", encodeNullable .str dh), ("images_count", .num ic), ("in_gallery", .bool ig)] "favorite" decodeBool = some (fa : _) := by
    rw [reqField_eq _ _ _ _ (by rw [countKey_eq_count, hmapb]; rfl) hlb12]
    rfl
  have hlb13 : lookupKey [("id", .str aid), ("title", .str ti), ("description", .str de), ("datetime", .num dt), ("cover", .str co), ("cover_width", .num cw), ("cover_height", .num ch), ("account_url", encodeNullable .str au), ("privacy", .str pr), ("layout", .str la), ("views", .num vw), ("link", .str li), ("favorite", .bool fa), ("nsfw", encodeNullable .bool nw), ("section", encodeNullable .str se), ("order", .num od), ("deletehash", encodeNullable .str dh), ("images_count", .num ic), ("in_gallery", .bool ig)] "nsfw" = some (encodeNullable .bool nw) := rfl
  have hb13 : optField [("id", .str aid), ("title", .str ti), ("description", .str de), ("datetime", .num dt), ("cover", .str co), ("cover_width", .num cw), ("cover_height", .num ch), ("account_url", encodeNullable .str au), ("privacy", .str pr), ("layout", .str la), ("views", .num vw), ("link", .str li), ("favorite", .bool fa), ("nsfw", encodeNullable .bool nw), ("section", encodeNullable .str se), ("order", .num od), ("deletehash", encodeNullable .str dh), ("images_count", .num ic), ("in_gallery", .bool ig)] "nsfw" decodeBool = some nw := by
    rw [optField_present _ _ _ _ (by rw [countKey_eq_count, hmapb]; rfl) hlb13]
    exact decodeNullable_encode_bool nw
  have hlb14 : lookupKey [("id", .str aid), ("title", .str ti), ("description", .str de), ("datetime", .num dt), ("cover", .str co), ("cover_width", .num cw), ("cover_height", .num ch), ("account_url", encodeNullable .str au), ("privacy", .str pr), ("layout", .str la), ("views", .num vw), ("link", .str li), ("favorite", .bool fa), ("nsfw", encodeNullable .bool nw), ("section", encodeNullable .str se), ("order", .num od), ("deletehash", encodeNullable .str dh), ("images_count", .num ic), ("in_gallery", .bool ig)] "section" = some (encodeNullable .str se) := rfl
  have hb14 : optField [("id", .str aid), ("title", .str ti), ("description", .str de), ("datetime", .num dt), ("cover", .str co), ("cover_width", .num cw), ("cover_height", .num ch), ("account_url", encodeNullable .str au), ("privacy", .str pr), ("layout", .str la), ("views", .num vw), ("link", .str li), ("favorite", .bool fa), ("nsfw", encodeNullable .bool nw), ("section", encodeNullable .str se), ("order", .num od), ("deletehash", encodeNullable .str dh), ("images_count", .num ic), ("in_gallery", .bool ig)] "section" decodeString = some se := by
    rw [optField_present _ _ _ _ (by rw [countKey_eq_count, hmapb]; rfl) hlb14]
    exact decodeNullable_encode_str se
  have hlb15 : lookupKey [("id", .str aid), ("title", .str ti), ("description", .str de), ("datetime", .num dt), ("cover", .str co), ("cover_width", .num cw), ("cover_height", .num ch), ("account_url", encodeNullable .str au), ("privacy", .str pr), ("layout", .str la), ("views", .num vw), ("link", .str li), ("favorite", .bool fa), ("nsfw", encodeNullable .bool nw), ("section", encodeNullable .str se), ("order", .num od), ("deletehash", encodeNullable .str dh), ("images_count", .num ic), ("in_gallery", .bool ig)] "order" = some (.num od) := rfl
  have hb15 : reqField [("id", .str aid), ("title", .str ti), ("description", .str de), ("datetime", .num dt), ("cover", .str co), ("cover_width", .num cw), ("cover_height", .num ch), ("account_url", encodeNullable .str au), ("privacy", .str pr), ("layout", .str la), ("views", .num vw), ("link", .str li), ("favorite", .bool fa), ("nsfw", encodeNullable .bool nw), ("section", encodeNullable .str se), ("order", .num od), ("deletehash", encodeNullable .str dh), ("images_count", .num ic), ("in_gallery", .bool ig)] "order" decodeU32 = some (od : _) := by
    rw [reqField_eq _ _ _ _ (by rw [countKey_eq_count, hmapb]; rfl) hlb15]
    rw [decodeU32_num, if_pos hod]
  have hlb16 : lookupKey [("id", .str aid), ("title", .str ti), ("description", .str de), ("datetime", .num dt), ("cover", .str co), ("cover_width", .num cw), ("cover_height", .num ch), ("account_url", encodeNullable .str au), ("privacy", .str pr), ("layout", .str la), ("views", .num vw), ("link", .str li), ("favorite", .bool fa), ("nsfw", encodeNullable .bool nw), ("section", encodeNullable .str se), ("order", .num od), ("deletehash", encodeNullable .str dh), ("images_count", .num ic), ("in_gallery", .bool ig)] "deletehash" = some (encodeNullable .str dh) := rfl
  have hb16 : optField [("id", .str aid), ("title", .str ti), ("description", .str de), ("datetime", .num dt), ("cover", .str co), ("cover_width", .num cw), ("cover_height", .num ch), ("account_url", encodeNullable .str au), ("privacy", .str pr), ("layout", .str la), ("views", .num vw), ("link", .str li), ("favorite", .bool fa), ("nsfw", encodeNullable .bool nw), ("section", encodeNullable .str se), ("order", .num od), ("deletehash", encodeNullable .str dh), ("images_count", .num ic), ("in_gallery", .bool ig)] "deletehash" decodeString = some dh := by
    rw [optField_present _ _ _ _ (by rw [countKey_eq_count, hmapb]; rfl) hlb16]
    exact decodeNullable_encode_str dh
  have hlb17 : lookupKey [("id", .str aid), ("title", .str ti), ("description", .str de), ("datetime", .num dt), ("cover", .str co), ("cover_width", .num cw), ("cover_height", .num ch), ("account_url", encodeNullable .str au), ("privacy", .str pr), ("layout", .str la), ("views", .num vw), ("link", .str li), ("favorite", .bool fa), ("nsfw", encodeNullable .bool nw), ("section", encodeNullable .str se), ("order", .num od), ("deletehash", encodeNullable .str dh), ("images_count", .num ic), ("in_gallery", .bool ig)] "images_count" = some (.num ic) := rfl
  have hb17 : reqField [("id", .str aid), ("title", .str ti), ("description", .str de), ("datetime", .num dt), ("cover", .str co), ("cover_width", .num cw), ("cover_height", .num ch), ("account_url", encodeNullable .str au), ("privacy", .str pr), ("layout", .str la), ("views", .num vw), ("link", .str li), ("favorite", .bool fa), ("nsfw", encodeNullable .bool nw), ("section", encodeNullable .str se), ("order", .num od), ("deletehash", encodeNullable .str dh), ("images_count", .num ic), ("in_gallery", .bool ig)] "images_count" decodeU32 = some (ic : _) := by
    rw [reqField_eq _ _ _ _ (by rw [countKey_eq_count, hmapb]; rfl) hlb17]
    rw [decodeU32_num, if_pos hic]
  have hb18 : optField [("id", .str aid), ("title", .str ti), ("description", .str de), ("datetime", .num dt), ("cover", .str co), ("cover_width", .num cw), ("cover_height", .num ch), ("account_url", encodeNullable .str au), ("privacy", .str pr), ("layout", .str la), ("views", .num vw), ("link", .str li), ("favorite", .bool fa), ("nsfw", encodeNullable .bool nw), ("section", encodeNullable .str se), ("order", .num od), ("deletehash", encodeNullable .str dh), ("images_count", .num ic), ("in_gallery", .bool ig)] "images" (decodeList decodeImage) = some none :=
    optField_missing _ _ _ (by rw [countKey_eq_count, hmapb]; rfl)
  have hlb19 : lookupKey [("id", .str aid), ("title", .str ti), ("description", .str de), ("datetime", .num dt), ("cover", .str co), ("cover_width", .num cw), ("cover_height", .num ch), ("account_url", encodeNullable .str au), ("privacy", .str pr), ("layout", .str la), ("views", .num vw), ("link", .str li), ("favorite", .bool fa), ("nsfw", encodeNullable .bool nw), ("section", encodeNullable .str se), ("order", .num od), ("deletehash", encodeNullable .str dh), ("images_count", .num ic), ("in_gallery", .bool ig)] "in_gallery" = some (.bool ig) := rfl
  have hb19 : reqField [("id", .str aid), ("title", .str ti), ("description", .str de), ("datetime", .num dt), ("cover", .str co), ("cover_width", .num cw), ("cover_height", .num ch), ("account_url", encodeNullable .str au), ("privacy", .str pr), ("layout", .str la), ("views", .num vw), ("link", .str li), ("favorite", .bool fa), ("nsfw", encodeNullable .bool nw), ("section", encodeNullable .str se), ("order", .num od), ("deletehash", encodeNullable .str dh), ("images_count", .num ic), ("in_gallery", .bool ig)] "in_gallery" decodeBool = some (ig : _) := by
    rw [reqField_eq _ _ _ _ (by rw [countKey_eq_count, hmapb]; rfl) hlb19]
    rfl
  simp only [decodeAlbum, hb0, hb1, hb2, hb3, hb4, hb5, hb6, hb7, hb8, hb9, hb10, hb11, hb12, hb13, hb14, hb15, hb16, hb17, hb18, hb19, obind_some]

/-- C8: a body whose `data` is a full album object with `images: null`
decodes to the success variant with `images` resolved to the absent
option value, and the same album object without an `images` entry also
decodes with `images` absent — neither is a decode failure. -/
theorem album_null_images_absent (sj bj : Json) (st : Nat) (su : Bool)
    (aid ti de co pr la li : String) (fa ig : Bool)
    (dt cw ch vw od ic : Nat) (au se dh : Option String) (nw : Option Bool)
    (hs : decodeUsize sj = some st) (hb : decodeBool bj = some su)
    (hdt : dt < 2 ^ 32) (hcw : cw < 2 ^ 32) (hch : ch < 2 ^ 32)
    (hvw : vw < 2 ^ 32) (hod : od < 2 ^ 32) (hic : ic < 2 ^ 32) :
    decodeResponse decodeAlbum
        (.obj [("status", sj), ("success", bj),
               ("data", .obj
                 [("id", .str aid), ("title", .str ti),
                  ("description", .str de), ("datetime", .num dt),
                  ("cover", .str co), ("cover_width", .num cw),
                  ("cover_height", .num ch),
                  ("account_url", encodeNullable .str au),
                  ("privacy", .str pr), ("layout", .str la),
                  ("views", .num vw), ("link", .str li),
                  ("favorite", .bool fa),
                  ("nsfw", encodeNullable .bool nw),
                  ("section", encodeNullable .str se),
                  ("order", .num od),
                  ("deletehash", encodeNullable .str dh),
                  ("images_count", .num ic), ("images", .null),
                  ("in_gallery", .bool ig)])])
      = some { status := st, success := su,
               data := .Success {
                  id := aid, title := ti, description := de,
                  datetime := dt, cover := co, cover_width := cw,
                  cover_height := ch, account_url := au, privacy := pr,
                  layout := la, views := vw, link := li, favorite := fa,
                  nsfw := nw, «section» := se, order := od,
                  deletehash := dh, images_count := ic, images := none,
                  in_gallery := ig } } ∧
    decodeAlbum
        (.obj [("id", .str aid), ("title", .str ti),
               ("description", .str de), ("datetime", .num dt),
               ("cover", .str co), ("cover_width", .num cw),
               ("cover_height", .num ch),
               ("account_url", encodeNullable .str au),
               ("privacy", .str pr), ("layout", .str la),
               ("views", .num vw), ("link", .str li),
               ("favorite", .bool fa), ("nsfw", encodeNullable .bool nw),
               ("section", encodeNullable .str se), ("order", .num od),
               ("deletehash", encodeNullable .str dh),
               ("images_count", .num ic), ("in_gallery", .bool ig)])
      = some
          { id := aid, title := ti, description := de, datetime := dt,
            cover := co, cover_width := cw, cover_height := ch,
            account_url := au, privacy := pr, layout := la, views := vw,
            link := li, favorite := fa, nsfw := nw, «section» := se,
            order := od, deletehash := dh, images_count := ic,
            images := none, in_gallery := ig } := by
  exact ⟨decodeResponse_obj_success decodeAlbum sj bj _ st su _ hs hb
      (decodeAlbum_null_images aid ti de co pr la li fa ig
        dt cw ch vw od ic au se dh nw hdt hcw hch hvw hod hic),
    decodeAlbum_missing_images aid ti de co pr la li fa ig
      dt cw ch vw od ic au se dh nw hdt hcw hch hvw hod hic⟩

/-- Witness for C8: the concrete album of the spec's scenario 4, with
`images: null` inside an envelope and with the field missing. -/
theorem album_null_images_absent_witness :
    decodeResponse decodeAlbum
        (.obj [("status", .num 200), ("success", .bool true),
               ("data", .obj
                 [("id", .str "cXz3n"), ("title", .str "an album"),
                  ("description", .str ""), ("datetime", .num 1500000000),
                  ("cover", .str "PE2NI"), ("cover_width", .num 200),
                  ("cover_height", .num 100),
                  ("account_url", encodeNullable .str none),
                  ("privacy", .str "public"), ("layout", .str "blog"),
                  ("views", .num 9),
                  ("link", .str "https://imgur.com/a/cXz3n"),
                  ("favorite", .bool false),
                  ("nsfw", encodeNullable .bool none),
                  ("section", encodeNullable .str none),
                  ("order", .num 0),
                  ("deletehash", encodeNullable .str none),
                  ("images_count", .num 6), ("images", .null),
                  ("in_gallery", .bool false)])])
      = some { status := 200, success := true,
               data := .Success albumExample } ∧
    decodeAlbum
        (.obj [("id", .str "cXz3n"), ("title", .str "an album"),
               ("description", .str ""), ("datetime", .num 1500000000),
               ("cover", .str "PE2NI"), ("cover_width", .num 200),
               ("cover_height", .num 100),
               ("account_url", encodeNullable .str none),
               ("privacy", .str "public"), ("layout", .str "blog"),
               ("views", .num 9),
               ("link", .str "https://imgur.com/a/cXz3n"),
               ("favorite", .bool false),
               ("nsfw", encodeNullable .bool none),
               ("section", encodeNullable .str none), ("order", .num 0),
               ("deletehash", encodeNullable .str none),
               ("images_count", .num 6), ("in_gallery", .bool false)])
      = some albumExample :=
  album_null_images_absent (.num 200) (.bool true) 200 true "cXz3n"
    "an album" "" "PE2NI" "public" "blog" "https://imgur.com/a/cXz3n"
    false false 1500000000 200 100 9 0 6 none none none none rfl rfl
    (by decide) (by decide) (by decide) (by decide) (by decide) (by decide)

/-- C4: round-trip — for every payload value of each of the three
expected payload shapes (an image, an album, a sequence of images),
serializing an envelope whose data is the success variant carrying it
and then decoding the result back yields an equal envelope: same
status, same success flag, and data equal to the success variant
carrying the payload unchanged. -/
theorem serialize_decode_roundtrip :
    (∀ (st : Nat) (su : Bool) (i : Image), st < 2 ^ 64 → i.wf →
        decodeResponse decodeImage
            (encodeResponse encodeImage
              { status := st, success := su, data := .Success i })
          = some { status := st, success := su, data := .Success i }) ∧
    (∀ (st : Nat) (su : Bool) (a : Album), st < 2 ^ 64 → a.wf →
        decodeResponse decodeAlbum
            (encodeResponse encodeAlbum
              { status := st, success := su, data := .Success a })
          = some { status := st, success := su, data := .Success a }) ∧
    (∀ (st : Nat) (su : Bool) (xs : List Image), st < 2 ^ 64 →
        (∀ i ∈ xs, i.wf) →
        decodeResponse (decodeList decodeImage)
            (encodeResponse (fun ys => .arr (ys.map encodeImage))
              { status := st, success := su, data := .Success xs })
          = some { status := st, success := su, data := .Success xs }) :=
  ⟨fun st su i hst hw =>
      encodeResponse_success_roundtrip encodeImage decodeImage st su i hst
        (image_roundtrip i hw),
   fun st su a hst hw =>
      encodeResponse_success_roundtrip encodeAlbum decodeAlbum st su a hst
        (album_roundtrip a hw),
   fun st su xs hst hw =>
      encodeResponse_success_roundtrip _ (decodeList decodeImage) st su xs hst
        (decodeList_mapM decodeImage encodeImage xs
          (fun i hi => image_roundtrip i (hw i hi)))⟩

/-- Witness for C4: the concrete image, album and image-list examples
round-trip through a success envelope with status 200. -/
theorem serialize_decode_roundtrip_witness :
    decodeResponse decodeImage
        (encodeResponse encodeImage
          { status := 200, success := true, data := .Success imageExample })
      = some { status := 200, success := true,
               data := .Success imageExample } ∧
    decodeResponse decodeAlbum
        (encodeResponse encodeAlbum
          { status := 200, success := true, data := .Success albumExample })
      = some { status := 200, success := true,
               data := .Success albumExample } ∧
    decodeResponse (decodeList decodeImage)
        (encodeResponse (fun ys => .arr (ys.map encodeImage))
          { status := 200, success := true,
            data := .Success [imageExample] })
      = some { status := 200, success := true,
               data := .Success [imageExample] } :=
  ⟨serialize_decode_roundtrip.1 200 true imageExample (by decide) (by decide),
   serialize_decode_roundtrip.2.1 200 true albumExample (by decide)
      (by decide),
   serialize_decode_roundtrip.2.2 200 true [imageExample] (by decide)
      (by decide)⟩

end Imgur
